import Mathlib

/-!
Verification of the TR-069 dialect-normalization and configuration-lifecycle
engine of this repository (semppreacs2.0).

The development shallowly embeds the relevant Python code:

* `app/services/tr069_normalizer.py` (`TR069Normalizer`): dialect detection,
  logical-path resolution, value access, write-instruction building;
* `app/routers/mobile_api_router.py` (`detect_device_paths` /
  `extract_device_info`): TR-181 radio/SSID index resolution;
* `app/services/config_backup_service.py` (`ConfigBackupService`): snapshot
  extraction, backup store transitions, factory-reset detection, auto-restore.

Device parameter trees (GenieACS documents) are modelled as `PTree`: a
string-keyed tree whose leaves carry scalar values (`PVal`).  Python `None`
is modelled by absence (`Option`).  Python strings are Lean `String`s; the
Python string operations the code uses (`in`, `split`, `lower`, `strip`,
`isdigit`, `re.sub` with a literal pattern) are re-implemented structurally
over `String.data` so that every definition evaluates by `decide` / `rfl`.
-/

/-- Scalar values stored at tree leaves (JSON string / integer / boolean). -/
inductive PVal where
  | pstr (s : String)
  | pint (n : Int)
  | pbool (b : Bool)
deriving DecidableEq, Repr

mutual
/-- A GenieACS device document: nested string-keyed objects with scalar
leaves.  `_value` wrappers of GenieACS are ordinary `node` children. -/
inductive PTree where
  | leaf (v : PVal)
  | node (children : PEntries)
deriving DecidableEq, Repr

/-- Association list of children of a `PTree.node` (insertion order kept,
as Python dicts keep it). -/
inductive PEntries where
  | nil
  | cons (key : String) (val : PTree) (rest : PEntries)
deriving DecidableEq, Repr
end

namespace PEntries

/-- Python `dict.get k`: the first entry with the given key. -/
def lookup : PEntries → String → Option PTree
  | .nil, _ => none
  | .cons k' v rest, k => if k' = k then some v else lookup rest k

/-- Python `len(dict) == 0` test (truthiness of a dict). -/
def isEmpty : PEntries → Bool
  | .nil => true
  | .cons _ _ _ => false

def ofList : List (String × PTree) → PEntries
  | [] => .nil
  | (k, v) :: rest => .cons k v (ofList rest)

end PEntries

/-- Convenience constructor for concrete test trees. -/
def tobj (l : List (String × PTree)) : PTree := .node (PEntries.ofList l)

/-- Convenience constructor for GenieACS `{"_value": s}` string leaves. -/
def vstr (s : String) : PTree := tobj [("_value", .leaf (.pstr s))]

/-- Convenience constructor for GenieACS `{"_value": n}` integer leaves. -/
def vint (n : Int) : PTree := tobj [("_value", .leaf (.pint n))]

/-- Convenience constructor for GenieACS `{"_value": b}` boolean leaves. -/
def vbool (b : Bool) : PTree := tobj [("_value", .leaf (.pbool b))]

-- ===========================================================================
-- Python string primitives, implemented structurally over `String.data`.
-- ===========================================================================

namespace PyStr

/-- Is `needle` a leading segment of `hay`?  (helper for `in`). -/
def leads : List Char → List Char → Bool
  | [], _ => true
  | _ :: _, [] => false
  | c :: cs, d :: ds => c = d && leads cs ds

/-- Does `needle` occur in `hay`?  (helper for `in`). -/
def occurs (needle : List Char) : List Char → Bool
  | [] => leads needle []
  | c :: rest => leads needle (c :: rest) || occurs needle rest

/-- Python `needle in hay` on strings. -/
def strIn (needle hay : String) : Bool := occurs needle.data hay.data

/-- Helper for `split`. -/
def splitChAux (sep : Char) : List Char → List Char → List String
  | [], acc => [⟨acc.reverse⟩]
  | c :: rest, acc =>
    if c = sep then ⟨acc.reverse⟩ :: splitChAux sep rest []
    else splitChAux sep rest (c :: acc)

/-- Python `s.split(sep)` for a one-character separator (the source only
splits on `"."`). -/
def splitCh (s : String) (sep : Char) : List String := splitChAux sep s.data []

/-- Python `s.lower()` (ASCII; all strings in the source tables are ASCII). -/
def lower (s : String) : String := ⟨s.data.map Char.toLower⟩

/-- Python `s.strip()`. -/
def strip (s : String) : String :=
  ⟨((s.data.dropWhile Char.isWhitespace).reverse.dropWhile Char.isWhitespace).reverse⟩

/-- Python `s.isdigit()` (true only for a nonempty all-digit string). -/
def isdigit (s : String) : Bool := !s.data.isEmpty && s.data.all Char.isDigit

/-- Fuel-driven loop for literal-pattern replacement (the fuel is an upper
bound on the input length, so it never runs out on the actual call). -/
def replLoop (pat rep : List Char) : Nat → List Char → List Char
  | 0, l => l
  | _ + 1, [] => []
  | fuel + 1, c :: rest =>
    if pat ≠ [] && leads pat (c :: rest) then
      rep ++ replLoop pat rep fuel (List.drop pat.length (c :: rest))
    else
      c :: replLoop pat rep fuel rest

/-- Python `re.sub(re.escape(pat), rep, s)`: replace every non-overlapping
occurrence of the literal `pat`, scanning left to right. -/
def replace (s pat rep : String) : String :=
  ⟨replLoop pat.data rep.data s.data.length s.data⟩

end PyStr

-- ===========================================================================
-- Python semantics helpers: truthiness, `or`, `str()`.
-- ===========================================================================

/-- Python truthiness of a scalar. -/
def PVal.truthy : PVal → Bool
  | .pstr s => s ≠ ""
  | .pint n => n ≠ 0
  | .pbool b => b

/-- Python truthiness of a tree value (a dict is truthy iff nonempty). -/
def PTree.truthy : PTree → Bool
  | .leaf v => v.truthy
  | .node kvs => !kvs.isEmpty

/-- Python truthiness of a possibly-`None` value. -/
def pyTruthy : Option PTree → Bool
  | none => false
  | some t => t.truthy

/-- Python `a or b` on possibly-`None` tree values. -/
def pyOr (a b : Option PTree) : Option PTree := if pyTruthy a then a else b

/-- Python `str(x)` restricted to the scalar leaves the source applies it to
(the source never stringifies a whole sub-document on the paths the claims
exercise, so the `node` case keeps a fixed placeholder rendering). -/
def pyStr : PTree → String
  | .leaf (.pstr s) => s
  | .leaf (.pint n) => toString n
  | .leaf (.pbool b) => if b then "True" else "False"
  | .node _ => "\x7bobject\x7d"

/-- Python `str(x)` where `x` may be `None` (used as `str(d.get(k, ""))`). -/
def pyStrOpt : Option PTree → String
  | none => ""
  | some t => pyStr t

-- ===========================================================================
-- Tree walking shared by both services.
-- ===========================================================================

/-- Walk a tree along a list of path segments (`dict.get` at each step; a
scalar or a missing key yields Python `None`). -/
def walkParts : Option PTree → List String → Option PTree
  | r, [] => r
  | none, _ :: _ => none
  | some (.leaf _), _ :: _ => none
  | some (.node kvs), p :: rest => walkParts (kvs.lookup p) rest

/-- GenieACS `_value` unwrapping: a dict that has a `_value` child stands for
that child. -/
def unwrapValue : PTree → PTree
  | .node kvs =>
    match kvs.lookup "_value" with
    | some v => v
    | none => .node kvs
  | t => t

/-- Model of `TR069Normalizer.get_value_by_path` (and, identically on dict-shaped
documents, `ConfigBackupService._get_value`): split the dotted path, walk the
tree, unwrap `_value`, fall back to `default` when the walk dies. -/
def get_value_by_path (device : PTree) (path : String) (default : Option PTree) :
    Option PTree :=
  match walkParts (some device) (PyStr.splitCh path '.') with
  | none => default
  | some r => some (unwrapValue r)

-- ===========================================================================
-- app/services/tr069_normalizer.py
-- ===========================================================================

/-- The two TR-069 data-model dialects. -/
inductive DataModel where
  | TR098
  | TR181
deriving DecidableEq, Repr

namespace TR069Normalizer

/-- Table `PARAM_MAP` of the source, as a total lookup: every entry of the Python
dict carries both dialect keys, so a mapped logical path yields the pair
`(TR-098 template, TR-181 template)`.  Occurrences of a brace-delimited
placeholder are kept verbatim (braces written as escapes). -/
def PARAM_MAP (logical_path : String) : Option (String × String) :=
  match logical_path with
  | "device.manufacturer" => some ("InternetGatewayDevice.DeviceInfo.Manufacturer", "Device.DeviceInfo.Manufacturer")
  | "device.model" => some ("InternetGatewayDevice.DeviceInfo.ModelName", "Device.DeviceInfo.ModelName")
  | "device.serial" => some ("InternetGatewayDevice.DeviceInfo.SerialNumber", "Device.DeviceInfo.SerialNumber")
  | "device.firmware" => some ("InternetGatewayDevice.DeviceInfo.SoftwareVersion", "Device.DeviceInfo.SoftwareVersion")
  | "device.uptime" => some ("InternetGatewayDevice.DeviceInfo.UpTime", "Device.DeviceInfo.UpTime")
  | "device.hardware" => some ("InternetGatewayDevice.DeviceInfo.HardwareVersion", "Device.DeviceInfo.HardwareVersion")
  | "device.reboot" => some ("InternetGatewayDevice.X_TP_Reboot", "Device.Reboot")
  | "wan.ppp.username" => some ("InternetGatewayDevice.WANDevice.1.WANConnectionDevice.1.WANPPPConnection.1.Username", "Device.PPP.Interface.1.Username")
  | "wan.ppp.password" => some ("InternetGatewayDevice.WANDevice.1.WANConnectionDevice.1.WANPPPConnection.1.Password", "Device.PPP.Interface.1.Password")
  | "wan.ppp.ip" => some ("InternetGatewayDevice.WANDevice.1.WANConnectionDevice.1.WANPPPConnection.1.ExternalIPAddress", "Device.PPP.Interface.1.IPCP.LocalIPAddress")
  | "wan.ppp.status" => some ("InternetGatewayDevice.WANDevice.1.WANConnectionDevice.1.WANPPPConnection.1.ConnectionStatus", "Device.PPP.Interface.1.Status")
  | "wan.ppp.uptime" => some ("InternetGatewayDevice.WANDevice.1.WANConnectionDevice.1.WANPPPConnection.1.Uptime", "Device.PPP.Interface.1.Stats.ConnectionUptime")
  | "wan.ip.address" => some ("InternetGatewayDevice.WANDevice.1.WANConnectionDevice.1.WANIPConnection.1.ExternalIPAddress", "Device.IP.Interface.1.IPv4Address.1.IPAddress")
  | "wan.ip.gateway" => some ("InternetGatewayDevice.WANDevice.1.WANConnectionDevice.1.WANIPConnection.1.DefaultGateway", "Device.Routing.Router.1.IPv4Forwarding.1.GatewayIPAddress")
  | "wan.ip.dns" => some ("InternetGatewayDevice.WANDevice.1.WANConnectionDevice.1.WANPPPConnection.1.DNSServers", "Device.DNS.Client.Server.1.DNSServer")
  | "wan.ipv6.address" => some ("InternetGatewayDevice.WANDevice.1.WANConnectionDevice.1.WANPPPConnection.1.X_HW_IPv6Address", "Device.IP.Interface.1.IPv6Address.1.IPAddress")
  | "wan.ipv6.prefix" => some ("InternetGatewayDevice.WANDevice.1.WANConnectionDevice.1.WANPPPConnection.1.X_TP_IPv6PrefixList", "Device.IP.Interface.1.IPv6Prefix.1.Prefix")
  | "wan.ipv6.enable" => some ("InternetGatewayDevice.WANDevice.1.WANConnectionDevice.1.WANPPPConnection.1.X_TPLINK_IPv6Enable", "Device.IP.Interface.1.IPv6Enable")
  | "wan.stats.rx_bytes" => some ("InternetGatewayDevice.WANDevice.1.WANConnectionDevice.1.WANPPPConnection.1.Stats.EthernetBytesReceived", "Device.PPP.Interface.1.Stats.BytesReceived")
  | "wan.stats.tx_bytes" => some ("InternetGatewayDevice.WANDevice.1.WANConnectionDevice.1.WANPPPConnection.1.Stats.EthernetBytesSent", "Device.PPP.Interface.1.Stats.BytesSent")
  | "lan.ip" => some ("InternetGatewayDevice.LANDevice.1.LANHostConfigManagement.IPInterface.1.IPInterfaceIPAddress", "Device.IP.Interface.2.IPv4Address.1.IPAddress")
  | "lan.ip.alt" => some ("InternetGatewayDevice.LANDevice.1.LANHostConfigManagement.IPAddress", "Device.IP.Interface.2.IPv4Address.1.IPAddress")
  | "lan.mask" => some ("InternetGatewayDevice.LANDevice.1.LANHostConfigManagement.IPInterface.1.IPInterfaceSubnetMask", "Device.IP.Interface.2.IPv4Address.1.SubnetMask")
  | "lan.mask.alt" => some ("InternetGatewayDevice.LANDevice.1.LANHostConfigManagement.SubnetMask", "Device.IP.Interface.2.IPv4Address.1.SubnetMask")
  | "lan.gateway" => some ("InternetGatewayDevice.LANDevice.1.LANHostConfigManagement.IPRouters", "Device.Routing.Router.1.IPv4Forwarding.1.GatewayIPAddress")
  | "lan.dhcp.enable" => some ("InternetGatewayDevice.LANDevice.1.LANHostConfigManagement.DHCPServerEnable", "Device.DHCPv4.Server.Pool.1.Enable")
  | "lan.dhcp.start" => some ("InternetGatewayDevice.LANDevice.1.LANHostConfigManagement.MinAddress", "Device.DHCPv4.Server.Pool.1.MinAddress")
  | "lan.dhcp.end" => some ("InternetGatewayDevice.LANDevice.1.LANHostConfigManagement.MaxAddress", "Device.DHCPv4.Server.Pool.1.MaxAddress")
  | "lan.dhcp.lease" => some ("InternetGatewayDevice.LANDevice.1.LANHostConfigManagement.DHCPLeaseTime", "Device.DHCPv4.Server.Pool.1.LeaseTime")
  | "lan.dhcp.dns" => some ("InternetGatewayDevice.LANDevice.1.LANHostConfigManagement.DNSServers", "Device.DHCPv4.Server.Pool.1.DNSServers")
  | "wifi.radio.enable" => some ("InternetGatewayDevice.LANDevice.1.WLANConfiguration.\x7bradio\x7d.Enable", "Device.WiFi.Radio.\x7bradio\x7d.Enable")
  | "wifi.radio.channel" => some ("InternetGatewayDevice.LANDevice.1.WLANConfiguration.\x7bradio\x7d.Channel", "Device.WiFi.Radio.\x7bradio\x7d.Channel")
  | "wifi.radio.auto_channel" => some ("InternetGatewayDevice.LANDevice.1.WLANConfiguration.\x7bradio\x7d.AutoChannelEnable", "Device.WiFi.Radio.\x7bradio\x7d.AutoChannelEnable")
  | "wifi.radio.bandwidth" => some ("InternetGatewayDevice.LANDevice.1.WLANConfiguration.\x7bradio\x7d.X_TP_Bandwidth", "Device.WiFi.Radio.\x7bradio\x7d.OperatingChannelBandwidth")
  | "wifi.radio.txpower" => some ("InternetGatewayDevice.LANDevice.1.WLANConfiguration.\x7bradio\x7d.X_TP_TransmitPower", "Device.WiFi.Radio.\x7bradio\x7d.TransmitPower")
  | "wifi.radio.standard" => some ("InternetGatewayDevice.LANDevice.1.WLANConfiguration.\x7bradio\x7d.Standard", "Device.WiFi.Radio.\x7bradio\x7d.OperatingStandards")
  | "wifi.ssid" => some ("InternetGatewayDevice.LANDevice.1.WLANConfiguration.\x7bradio\x7d.SSID", "Device.WiFi.SSID.\x7bradio\x7d.SSID")
  | "wifi.ssid.enable" => some ("InternetGatewayDevice.LANDevice.1.WLANConfiguration.\x7bradio\x7d.Enable", "Device.WiFi.SSID.\x7bradio\x7d.Enable")
  | "wifi.ssid.hidden" => some ("InternetGatewayDevice.LANDevice.1.WLANConfiguration.\x7bradio\x7d.SSIDAdvertisementEnabled", "Device.WiFi.AccessPoint.\x7bradio\x7d.SSIDAdvertisementEnabled")
  | "wifi.security.mode" => some ("InternetGatewayDevice.LANDevice.1.WLANConfiguration.\x7bradio\x7d.BeaconType", "Device.WiFi.AccessPoint.\x7bradio\x7d.Security.ModeEnabled")
  | "wifi.security.mode.alt" => some ("InternetGatewayDevice.LANDevice.1.WLANConfiguration.\x7bradio\x7d.X_TP_SecurityMode", "Device.WiFi.AccessPoint.\x7bradio\x7d.Security.ModeEnabled")
  | "wifi.security.password" => some ("InternetGatewayDevice.LANDevice.1.WLANConfiguration.\x7bradio\x7d.PreSharedKey", "Device.WiFi.AccessPoint.\x7bradio\x7d.Security.KeyPassphrase")
  | "wifi.security.password.alt" => some ("InternetGatewayDevice.LANDevice.1.WLANConfiguration.\x7bradio\x7d.X_TP_PreSharedKey", "Device.WiFi.AccessPoint.\x7bradio\x7d.Security.KeyPassphrase")
  | "wifi.security.encryption" => some ("InternetGatewayDevice.LANDevice.1.WLANConfiguration.\x7bradio\x7d.X_TP_Encryption", "Device.WiFi.AccessPoint.\x7bradio\x7d.Security.EncryptionMode")
  | "wifi.wmm" => some ("InternetGatewayDevice.LANDevice.1.WLANConfiguration.\x7bradio\x7d.WMMEnable", "Device.WiFi.AccessPoint.\x7bradio\x7d.WMMEnable")
  | "wifi.isolation" => some ("InternetGatewayDevice.LANDevice.1.WLANConfiguration.\x7bradio\x7d.IsolationEnable", "Device.WiFi.AccessPoint.\x7bradio\x7d.IsolationEnable")
  | "wifi.short_gi" => some ("InternetGatewayDevice.LANDevice.1.WLANConfiguration.\x7bradio\x7d.X_TP_ShortGI", "Device.WiFi.Radio.\x7bradio\x7d.GuardInterval")
  | "wifi.beacon" => some ("InternetGatewayDevice.LANDevice.1.WLANConfiguration.\x7bradio\x7d.BeaconInterval", "Device.WiFi.Radio.\x7bradio\x7d.BeaconPeriod")
  | "wifi.rts" => some ("InternetGatewayDevice.LANDevice.1.WLANConfiguration.\x7bradio\x7d.RTSThreshold", "Device.WiFi.Radio.\x7bradio\x7d.RTSThreshold")
  | "wifi.dtim" => some ("InternetGatewayDevice.LANDevice.1.WLANConfiguration.\x7bradio\x7d.DTIMInterval", "Device.WiFi.Radio.\x7bradio\x7d.DTIMPeriod")
  | "wifi.clients" => some ("InternetGatewayDevice.LANDevice.1.WLANConfiguration.\x7bradio\x7d.AssociatedDevice", "Device.WiFi.AccessPoint.\x7bradio\x7d.AssociatedDevice")
  | "wifi.clients.count" => some ("InternetGatewayDevice.LANDevice.1.WLANConfiguration.\x7bradio\x7d.TotalAssociations", "Device.WiFi.AccessPoint.\x7bradio\x7d.AssociatedDeviceNumberOfEntries")
  | "wifi.wps.enable" => some ("InternetGatewayDevice.LANDevice.1.WLANConfiguration.\x7bradio\x7d.WPS.Enable", "Device.WiFi.AccessPoint.\x7bradio\x7d.WPS.Enable")
  | "wifi.wps.pin" => some ("InternetGatewayDevice.LANDevice.1.WLANConfiguration.\x7bradio\x7d.WPS.X_TP_STAEnrolleePIN", "Device.WiFi.AccessPoint.\x7bradio\x7d.WPS.PIN")
  | "hosts.table" => some ("InternetGatewayDevice.LANDevice.1.Hosts.Host", "Device.Hosts.Host")
  | "hosts.count" => some ("InternetGatewayDevice.LANDevice.1.Hosts.HostNumberOfEntries", "Device.Hosts.HostNumberOfEntries")
  | "diag.ping.host" => some ("InternetGatewayDevice.IPPingDiagnostics.Host", "Device.IP.Diagnostics.IPPing.Host")
  | "diag.ping.count" => some ("InternetGatewayDevice.IPPingDiagnostics.NumberOfRepetitions", "Device.IP.Diagnostics.IPPing.NumberOfRepetitions")
  | "diag.ping.timeout" => some ("InternetGatewayDevice.IPPingDiagnostics.Timeout", "Device.IP.Diagnostics.IPPing.Timeout")
  | "diag.ping.state" => some ("InternetGatewayDevice.IPPingDiagnostics.DiagnosticsState", "Device.IP.Diagnostics.IPPing.DiagnosticsState")
  | "diag.ping.success_count" => some ("InternetGatewayDevice.IPPingDiagnostics.SuccessCount", "Device.IP.Diagnostics.IPPing.SuccessCount")
  | "diag.ping.failure_count" => some ("InternetGatewayDevice.IPPingDiagnostics.FailureCount", "Device.IP.Diagnostics.IPPing.FailureCount")
  | "diag.ping.avg_time" => some ("InternetGatewayDevice.IPPingDiagnostics.AverageResponseTime", "Device.IP.Diagnostics.IPPing.AverageResponseTime")
  | "diag.ping.min_time" => some ("InternetGatewayDevice.IPPingDiagnostics.MinimumResponseTime", "Device.IP.Diagnostics.IPPing.MinimumResponseTime")
  | "diag.ping.max_time" => some ("InternetGatewayDevice.IPPingDiagnostics.MaximumResponseTime", "Device.IP.Diagnostics.IPPing.MaximumResponseTime")
  | "diag.download.url" => some ("InternetGatewayDevice.DownloadDiagnostics.DownloadURL", "Device.IP.Diagnostics.DownloadDiagnostics.DownloadURL")
  | "diag.download.state" => some ("InternetGatewayDevice.DownloadDiagnostics.DiagnosticsState", "Device.IP.Diagnostics.DownloadDiagnostics.DiagnosticsState")
  | "diag.download.bytes" => some ("InternetGatewayDevice.DownloadDiagnostics.TestBytesReceived", "Device.IP.Diagnostics.DownloadDiagnostics.TestBytesReceived")
  | "diag.download.time" => some ("InternetGatewayDevice.DownloadDiagnostics.TotalBytesReceived", "Device.IP.Diagnostics.DownloadDiagnostics.TotalBytesReceived")
  | "diag.upload.url" => some ("InternetGatewayDevice.UploadDiagnostics.UploadURL", "Device.IP.Diagnostics.UploadDiagnostics.UploadURL")
  | "diag.upload.state" => some ("InternetGatewayDevice.UploadDiagnostics.DiagnosticsState", "Device.IP.Diagnostics.UploadDiagnostics.DiagnosticsState")
  | "diag.traceroute.host" => some ("InternetGatewayDevice.TraceRouteDiagnostics.Host", "Device.IP.Diagnostics.TraceRoute.Host")
  | "diag.traceroute.state" => some ("InternetGatewayDevice.TraceRouteDiagnostics.DiagnosticsState", "Device.IP.Diagnostics.TraceRoute.DiagnosticsState")
  | "diag.traceroute.hops" => some ("InternetGatewayDevice.TraceRouteDiagnostics.RouteHops", "Device.IP.Diagnostics.TraceRoute.RouteHops")
  | "nat.portmapping" => some ("InternetGatewayDevice.WANDevice.1.WANConnectionDevice.1.WANIPConnection.1.PortMapping", "Device.NAT.PortMapping")
  | "nat.portmapping.enable" => some ("InternetGatewayDevice.WANDevice.1.WANConnectionDevice.1.WANIPConnection.1.PortMapping.\x7bidx\x7d.PortMappingEnabled", "Device.NAT.PortMapping.\x7bidx\x7d.Enable")
  | "nat.portmapping.protocol" => some ("InternetGatewayDevice.WANDevice.1.WANConnectionDevice.1.WANIPConnection.1.PortMapping.\x7bidx\x7d.PortMappingProtocol", "Device.NAT.PortMapping.\x7bidx\x7d.Protocol")
  | "nat.portmapping.external_port" => some ("InternetGatewayDevice.WANDevice.1.WANConnectionDevice.1.WANIPConnection.1.PortMapping.\x7bidx\x7d.ExternalPort", "Device.NAT.PortMapping.\x7bidx\x7d.ExternalPort")
  | "nat.portmapping.internal_port" => some ("InternetGatewayDevice.WANDevice.1.WANConnectionDevice.1.WANIPConnection.1.PortMapping.\x7bidx\x7d.InternalPort", "Device.NAT.PortMapping.\x7bidx\x7d.InternalPort")
  | "nat.portmapping.internal_client" => some ("InternetGatewayDevice.WANDevice.1.WANConnectionDevice.1.WANIPConnection.1.PortMapping.\x7bidx\x7d.InternalClient", "Device.NAT.PortMapping.\x7bidx\x7d.InternalClient")
  | "nat.portmapping.description" => some ("InternetGatewayDevice.WANDevice.1.WANConnectionDevice.1.WANIPConnection.1.PortMapping.\x7bidx\x7d.PortMappingDescription", "Device.NAT.PortMapping.\x7bidx\x7d.Description")
  | "eth.interface" => some ("InternetGatewayDevice.LANDevice.1.LANEthernetInterfaceConfig", "Device.Ethernet.Interface")
  | "eth.status" => some ("InternetGatewayDevice.LANDevice.1.LANEthernetInterfaceConfig.\x7bidx\x7d.Status", "Device.Ethernet.Interface.\x7bidx\x7d.Status")
  | "eth.mac" => some ("InternetGatewayDevice.LANDevice.1.LANEthernetInterfaceConfig.\x7bidx\x7d.MACAddress", "Device.Ethernet.Interface.\x7bidx\x7d.MACAddress")
  | "firmware.current" => some ("InternetGatewayDevice.DeviceInfo.SoftwareVersion", "Device.DeviceInfo.SoftwareVersion")
  | "firmware.available" => some ("InternetGatewayDevice.ManagementServer.AvailableFirmwareVersion", "Device.DeviceSummary.AvailableFirmwareVersion")
  | "acs.url" => some ("InternetGatewayDevice.ManagementServer.URL", "Device.ManagementServer.URL")
  | "acs.username" => some ("InternetGatewayDevice.ManagementServer.Username", "Device.ManagementServer.Username")
  | "acs.password" => some ("InternetGatewayDevice.ManagementServer.Password", "Device.ManagementServer.Password")
  | "acs.periodic_enable" => some ("InternetGatewayDevice.ManagementServer.PeriodicInformEnable", "Device.ManagementServer.PeriodicInformEnable")
  | "acs.periodic_interval" => some ("InternetGatewayDevice.ManagementServer.PeriodicInformInterval", "Device.ManagementServer.PeriodicInformInterval")
  | _ => none

/-- Table `MANUFACTURER_MODEL_MAP` of the source, in insertion (iteration) order. -/
def MANUFACTURER_MODEL_MAP : List (String × DataModel) := [
  ("tp-link", .TR098),
  ("tplink", .TR098),
  ("tp link", .TR098),
  ("intelbras", .TR098),
  ("multilaser", .TR098),
  ("dlink", .TR098),
  ("d-link", .TR098),
  ("tenda", .TR098),
  ("mercusys", .TR098),
  ("zyxel", .TR098),
  ("netgear", .TR098),
  ("linksys", .TR098),
  ("asus", .TR098),
  ("huawei", .TR181),
  ("hua wei", .TR181),
  ("fiberhome", .TR181),
  ("fiber home", .TR181),
  ("zte", .TR181),
  ("nokia", .TR181),
  ("alcatel", .TR181),
  ("alcatel-lucent", .TR181),
  ("calix", .TR181),
  ("sagemcom", .TR181),
  ("technicolor", .TR181),
  ("zhone", .TR181),
  ("adtran", .TR181)
]

/-- Model of `dict.get(k, \x7b\x7d).get(...)` style access on a possibly-missing,
possibly-non-dict value: a missing key or a scalar receiver yields `None`
(the source only chains `.get` after a `\x7b\x7d` default). -/
def dictGet (t : Option PTree) (k : String) : Option PTree :=
  match t with
  | some (.node kvs) => kvs.lookup k
  | _ => none

mutual
/-- Model of `TR069Normalizer.detect_data_model._contains_key_recursive`: does `key`
occur as a dict key anywhere in the document?  (The source checks the dict
itself first and then recurses into every value; the interleaved disjunction
below computes the same boolean.) -/
def contains_key_recursive : PTree → String → Bool
  | .leaf _, _ => false
  | .node kvs, key => contains_key_entries kvs key

def contains_key_entries : PEntries → String → Bool
  | .nil, _ => false
  | .cons k v rest, key =>
    k == key || contains_key_recursive v key || contains_key_entries rest key
end

/-- First entry of `MANUFACTURER_MODEL_MAP` whose vendor fragment occurs in
the manufacturer string (the `for key, model in ...items()` loop). -/
def manufacturer_lookup : List (String × DataModel) → String → Option DataModel
  | [], _ => none
  | (key, model) :: rest, manufacturer =>
    if PyStr.strIn key manufacturer then some model
    else manufacturer_lookup rest manufacturer

/-- Model of `TR069Normalizer.detect_data_model`: structural evidence first (any
`Device` or `DeviceInfo` key anywhere means TR-181, else any
`InternetGatewayDevice` key means TR-098), then the manufacturer fragment
table, then `_ProductClass` fragments, then the TR-098 default. -/
def detect_data_model (device : PTree) : DataModel :=
  if contains_key_recursive device "Device" || contains_key_recursive device "DeviceInfo" then
    .TR181
  else if contains_key_recursive device "InternetGatewayDevice" then
    .TR098
  else
    let device_id := dictGet (some device) "_deviceId"
    let manufacturer := PyStr.strip (PyStr.lower (pyStrOpt (dictGet device_id "_Manufacturer")))
    match manufacturer_lookup MANUFACTURER_MODEL_MAP manufacturer with
    | some model => model
    | none =>
      let product_class := PyStr.lower (pyStrOpt (dictGet device_id "_ProductClass"))
      if ["h196", "f660"].any (fun x => PyStr.strIn x product_class) then .TR098
      else if ["hg", "eg"].any (fun x => PyStr.strIn x product_class) then .TR181
      else .TR098

/-- Model of `re.sub(rf"\\\x7b\x7b\x7bkey\x7d\\\x7d\x7d", str(value), path)` applied for every
`(key, value)` pair of `vars`, in dict iteration order. -/
def substVars (path : String) (vars : List (String × String)) : String :=
  vars.foldl (fun p kv => PyStr.replace p ("\x7b" ++ kv.1 ++ "\x7d") kv.2) path

/-- Model of `TR069Normalizer.get_path`.  When the logical path is mapped, the
source's `mapping.get(model) or mapping.get("TR-098") or mapping.get("TR-181")`
chain always yields the detected dialect's template (every entry carries both
non-empty templates); when it is unmapped, the source logs a warning and
returns the logical path itself, without substitution. -/
def get_path (device : PTree) (logical_path : String)
    (vars : List (String × String)) : String :=
  let model := detect_data_model device
  match PARAM_MAP logical_path with
  | none => logical_path
  | some (p98, p181) =>
    substVars (if model = .TR181 then p181 else p98) vars

/-- The `val is not None and val != ""` test of `get_value` /
`get_value_multi` (everything except the empty string counts as found,
including `0`, `False` and dict values). -/
def found_value (v : PTree) : Bool := v ≠ PTree.leaf (.pstr "")

/-- The candidate loop of `TR069Normalizer.get_value`: substitute `vars`
into each path, read it literally, and return the first value that is
neither `None` nor the empty string. -/
def try_paths (device : PTree) (paths : List String)
    (vars : List (String × String)) : Option PTree :=
  match paths with
  | [] => none
  | p :: rest =>
    match get_value_by_path device (substVars p vars) none with
    | some v => if found_value v then some v else try_paths device rest vars
    | none => try_paths device rest vars

/-- Model of `TR069Normalizer.get_value`: try the detected dialect's template first,
then the other dialect's, and finally fall back to `get_path` with the
caller's default. -/
def get_value (device : PTree) (logical_path : String)
    (vars : List (String × String)) (default : Option PTree) : Option PTree :=
  let model := detect_data_model device
  let paths_to_try : List String :=
    match PARAM_MAP logical_path with
    | some (p98, p181) =>
      let preferred := if model = .TR181 then p181 else p98
      let other := if model = .TR181 then p98 else p181
      [preferred] ++ (if other ≠ preferred then [other] else [])
    | none => [get_path device logical_path vars]
  match try_paths device paths_to_try vars with
  | some v => some v
  | none => get_value_by_path device (get_path device logical_path vars) default

/-- Model of `TR069Normalizer.get_value_multi`: first logical path whose value is
neither `None` nor the empty string, else the default. -/
def get_value_multi (device : PTree) (logical_paths : List String)
    (vars : List (String × String)) (default : Option PTree) : Option PTree :=
  match logical_paths with
  | [] => default
  | lp :: rest =>
    match get_value device lp vars none with
    | some v => if found_value v then some v else get_value_multi device rest vars default
    | none => get_value_multi device rest vars default

/-- Model of `TR069Normalizer.infer_xsd_type` (`bool` is tested before `int`, as in
the source; `float` and other shapes fall to `xsd:string`). -/
def infer_xsd_type : PVal → String
  | .pbool _ => "xsd:boolean"
  | .pint _ => "xsd:unsignedInt"
  | .pstr _ => "xsd:string"

/-- One element of the `params` argument of `build_set_params`:
`\x7b"path": ..., "value": ..., "type"?: ..., "vars"?: ...\x7d`
(`none` / `[]` model the absent dict keys). -/
structure SetParam where
  path : String
  value : PVal
  ty : Option String
  vars : List (String × String)
deriving DecidableEq, Repr

/-- Model of `TR069Normalizer.build_set_params`: one `[path, value, type]` triple per
requested parameter, with `get_path` resolution, `str(...)` stringification
and `param.get("type") or infer_xsd_type(...)` type selection.  Nothing is
ever dropped. -/
def build_set_params (device : PTree) (params : List SetParam) :
    List (String × String × String) :=
  params.map (fun param =>
    let path := get_path device param.path param.vars
    let value := pyStr (.leaf param.value)
    let xsd_type :=
      match param.ty with
      | some t => if t ≠ "" then t else infer_xsd_type param.value
      | none => infer_xsd_type param.value
    (path, value, xsd_type))

/-- Result dict of `TR069Normalizer.get_wifi_params` (fields in source
order; `hidden` is the plain boolean `not get_value(...)`). -/
structure WifiParams where
  enabled : Option PTree
  ssid : Option PTree
  password : Option PTree
  channel : Option PTree
  auto_channel : Option PTree
  bandwidth : Option PTree
  tx_power : Option PTree
  security_mode : Option PTree
  encryption : Option PTree
  hidden : Bool
  wmm : Option PTree
  isolation : Option PTree
deriving DecidableEq, Repr

/-- Model of `TR069Normalizer.get_wifi_params`. -/
def get_wifi_params (device : PTree) (radio : Int) : WifiParams :=
  let vars := [("radio", toString radio)]
  { enabled := get_value device "wifi.radio.enable" vars (some (.leaf (.pbool false))),
    ssid := get_value device "wifi.ssid" vars (some (.leaf (.pstr ""))),
    password := get_value_multi device
      ["wifi.security.password", "wifi.security.password.alt"] vars
      (some (.leaf (.pstr ""))),
    channel := get_value device "wifi.radio.channel" vars (some (.leaf (.pstr "Auto"))),
    auto_channel := get_value device "wifi.radio.auto_channel" vars (some (.leaf (.pbool true))),
    bandwidth := get_value device "wifi.radio.bandwidth" vars (some (.leaf (.pstr "Auto"))),
    tx_power := get_value device "wifi.radio.txpower" vars (some (.leaf (.pint 100))),
    security_mode := get_value_multi device
      ["wifi.security.mode", "wifi.security.mode.alt"] vars
      (some (.leaf (.pstr "WPA2"))),
    encryption := get_value device "wifi.security.encryption" vars (some (.leaf (.pstr "AES"))),
    hidden := !(pyTruthy (get_value device "wifi.ssid.hidden" vars (some (.leaf (.pbool true))))),
    wmm := get_value device "wifi.wmm" vars (some (.leaf (.pbool true))),
    isolation := get_value device "wifi.isolation" vars (some (.leaf (.pbool false))) }

end TR069Normalizer

-- ===========================================================================
-- app/routers/mobile_api_router.py : TR-181 radio / SSID index resolution
-- (the identical loops of `extract_device_info` and `detect_device_paths`)
-- ===========================================================================

namespace MobileApi

open TR069Normalizer (dictGet)

/-- Model of `str(radio_entries.get(idx, \x7b\x7d).get('OperatingFrequencyBand', \x7b\x7d).get('_value', ''))` -/
def band_of (radio_entries : Option PTree) (idx : String) : String :=
  pyStrOpt (dictGet (dictGet (dictGet radio_entries idx) "OperatingFrequencyBand") "_value")

/-- One iteration of the radio loop: a band containing `"2.4"` overwrites the
2.4 GHz index, else a band containing `"5"` overwrites the 5 GHz index.
There is no first-match guard, so a later matching radio replaces an earlier
one. -/
def radio_step (radio_entries : Option PTree)
    (acc : Option String × Option String) (idx : String) :
    Option String × Option String :=
  let band := band_of radio_entries idx
  if PyStr.strIn "2.4" band then (some idx, acc.2)
  else if PyStr.strIn "5" band then (acc.1, some idx)
  else acc

/-- The `for idx in ['1', '2', '3', '4']` radio-classification loop of
`detect_device_paths` / `extract_device_info`, yielding
`(radio_2g_idx, radio_5g_idx)`. -/
def detect_radio_idx (radio_entries : Option PTree) : Option String × Option String :=
  (["1", "2", "3", "4"] : List String).foldl (radio_step radio_entries) (none, none)

/-- Model of `str(ssid_entries.get(idx, \x7b\x7d).get('LowerLayers', \x7b\x7d).get('_value', ''))` -/
def lower_layers_of (ssid_entries : Option PTree) (idx : String) : String :=
  pyStrOpt (dictGet (dictGet (dictGet ssid_entries idx) "LowerLayers") "_value")

/-- Does this SSID back-reference the given radio?  The source's
`radio_2g_idx and f'Radio.\x7bradio_2g_idx\x7d' in lower_layers` test: a plain
substring check (all candidate indices are non-empty, hence truthy). -/
def references_radio (radio_idx : Option String) (lower_layers : String) : Bool :=
  match radio_idx with
  | some r => PyStr.strIn ("Radio." ++ r) lower_layers
  | none => false

/-- One iteration of the SSID loop: the first SSID whose `LowerLayers`
names the 2.4 GHz radio becomes the 2.4 GHz primary (`if ... is None`
guard); an SSID matching the 2.4 GHz radio is never considered for 5 GHz
(`elif`). -/
def ssid_step (ssid_entries : Option PTree) (r2 r5 : Option String)
    (acc : Option String × Option String) (idx : String) :
    Option String × Option String :=
  let ll := lower_layers_of ssid_entries idx
  if references_radio r2 ll then
    (if acc.1 = none then (some idx, acc.2) else acc)
  else if references_radio r5 ll then
    (if acc.2 = none then (acc.1, some idx) else acc)
  else acc

/-- The `for idx in ['1', ..., '8']` SSID-classification loop of
`detect_device_paths` / `extract_device_info`, yielding
`(ssid_2g_idx, ssid_5g_idx)`. -/
def detect_ssid_idx (ssid_entries : Option PTree) (r2 r5 : Option String) :
    Option String × Option String :=
  (["1", "2", "3", "4", "5", "6", "7", "8"] : List String).foldl
    (ssid_step ssid_entries r2 r5) (none, none)

end MobileApi

-- ===========================================================================
-- app/services/config_backup_service.py
-- ===========================================================================

namespace ConfigBackupService

open TR069Normalizer (dictGet)

/-- Constant `RESET_UPTIME_THRESHOLD = 600` (10 minutes). -/
def RESET_UPTIME_THRESHOLD : Int := 600

/-- Model of `ConfigBackupService._get_value` for dict-shaped documents (the
`getattr` branch is never taken on GenieACS trees): identical to
`get_value_by_path`. -/
def cbs_get_value (device_data : PTree) (path : String) (default : Option PTree) :
    Option PTree :=
  get_value_by_path device_data path default

/-- Python `int(x)` on the scalar shapes the claims exercise (integers and
booleans).  On the remaining shapes — strings and dicts — the source either
parses a decimal string or raises, and no claim is settled there, so they
map to `none`. -/
def asInt : PTree → Option Int
  | .leaf (.pint n) => some n
  | .leaf (.pbool b) => some (if b then 1 else 0)
  | _ => none

/-- Python `str` extraction for values the source immediately treats as
strings (`ssid.lower()`, `serial.lower()`); non-string scalars are outside
the claims' domain. -/
def asStr : PTree → Option String
  | .leaf (.pstr s) => some s
  | _ => none

/-- The always-populated nine-key band dict built by
`_extract_wifi_config` for 2.4 GHz (and for 5 GHz when a
`WLANConfiguration.\x7b2,5\x7d` SSID is truthy).  `hidden` is the plain boolean
`not _get_value(..., True)`. -/
structure WifiBand where
  ssid : Option PTree
  password : Option PTree
  enabled : Option PTree
  channel : Option PTree
  auto_channel : Option PTree
  security_mode : Option PTree
  hidden : Bool
  bandwidth : Option PTree
  txpower : Option PTree
deriving DecidableEq, Repr

/-- Shape of the `config["5GHz"]` dict: it starts as the empty dict, may be
filled with all nine keys by the `WLANConfiguration.\x7b2,5\x7d` loop, and may be
turned into the two-key `\x7bssid, password\x7d` dict by the TR-181 fallback.
The three constructors serialise to distinct JSON objects, which matters
for content-hash equality. -/
inductive Band5 where
  | empty
  | full (band : WifiBand)
  | fallback2 (ssid password : Option PTree)
deriving DecidableEq, Repr

/-- Model of `config["5GHz"].get("ssid")`. -/
def Band5.ssid? : Band5 → Option PTree
  | .empty => none
  | .full b => b.ssid
  | .fallback2 s _ => s

/-- Model of `config["5GHz"].get("password")`. -/
def Band5.password? : Band5 → Option PTree
  | .empty => none
  | .full b => b.password
  | .fallback2 _ p => p

/-- Model of `config["5GHz"].get("channel")` (absent unless the nine-key dict). -/
def Band5.channel? : Band5 → Option PTree
  | .full b => b.channel
  | _ => none

/-- Model of `config["5GHz"].get("enabled")` (absent unless the nine-key dict). -/
def Band5.enabled? : Band5 → Option PTree
  | .full b => b.enabled
  | _ => none

/-- Result of `_extract_wifi_config`: the `"2.4GHz"` and `"5GHz"` entries. -/
structure WifiConfig where
  b24 : WifiBand
  b5 : Band5
deriving DecidableEq, Repr

/-- The nine-key band dict read at a given `WLANConfiguration` path. -/
def read_band (device_data : PTree) (pfx : String) (ssid : Option PTree) : WifiBand :=
  { ssid := ssid,
    password := pyOr (cbs_get_value device_data (pfx ++ ".PreSharedKey.1.PreSharedKey") none)
                     (cbs_get_value device_data (pfx ++ ".KeyPassphrase") none),
    enabled := cbs_get_value device_data (pfx ++ ".Enable") (some (.leaf (.pbool true))),
    channel := cbs_get_value device_data (pfx ++ ".Channel") none,
    auto_channel := cbs_get_value device_data (pfx ++ ".AutoChannelEnable") none,
    security_mode := pyOr (cbs_get_value device_data (pfx ++ ".BeaconType") none)
                          (cbs_get_value device_data (pfx ++ ".X_TP_SecurityMode") none),
    hidden := !(pyTruthy (cbs_get_value device_data (pfx ++ ".SSIDAdvertisementEnabled")
                  (some (.leaf (.pbool true))))),
    bandwidth := cbs_get_value device_data (pfx ++ ".X_TP_Bandwidth") none,
    txpower := cbs_get_value device_data (pfx ++ ".X_TP_TransmitPower") none }

/-- Model of `ConfigBackupService._extract_wifi_config`: the 2.4 GHz dict from
`WLANConfiguration.1`, the 5 GHz dict from the first of
`WLANConfiguration.2` / `.5` with a truthy SSID, then — when the 2.4 GHz
SSID is not truthy — the TR-181 fallback overwriting the 2.4 GHz
`ssid`/`password` keys and setting the 5 GHz dict's `ssid`/`password` keys
from `Device.WiFi.*`. -/
def extract_wifi_config (device_data : PTree) : WifiConfig :=
  let p24 := "InternetGatewayDevice.LANDevice.1.WLANConfiguration.1"
  let b24 := read_band device_data p24 (cbs_get_value device_data (p24 ++ ".SSID") none)
  let p5a := "InternetGatewayDevice.LANDevice.1.WLANConfiguration.2"
  let p5b := "InternetGatewayDevice.LANDevice.1.WLANConfiguration.5"
  let s5a := cbs_get_value device_data (p5a ++ ".SSID") none
  let s5b := cbs_get_value device_data (p5b ++ ".SSID") none
  let b5 : Band5 :=
    if pyTruthy s5a then .full (read_band device_data p5a s5a)
    else if pyTruthy s5b then .full (read_band device_data p5b s5b)
    else .empty
  if !(pyTruthy b24.ssid) then
    let b24f := { b24 with
      ssid := cbs_get_value device_data "Device.WiFi.SSID.1.SSID" none,
      password := cbs_get_value device_data "Device.WiFi.AccessPoint.1.Security.KeyPassphrase" none }
    let s5f := cbs_get_value device_data "Device.WiFi.SSID.2.SSID" none
    let pw5f := cbs_get_value device_data "Device.WiFi.AccessPoint.2.Security.KeyPassphrase" none
    let b5f : Band5 :=
      match b5 with
      | .full b => .full { b with ssid := s5f, password := pw5f }
      | _ => .fallback2 s5f pw5f
    ⟨b24f, b5f⟩
  else
    ⟨b24, b5⟩

/-- The `config["pppoe"]` dict of `_extract_wan_config`. -/
structure PppoeCfg where
  username : Option PTree
  password : Option PTree
  enabled : Option PTree
  nat_enabled : Option PTree
  mtu : Option PTree
deriving DecidableEq, Repr

/-- The `config["static_ip"]` dict of `_extract_wan_config`. -/
structure StaticIpCfg where
  address : Option PTree
  gateway : Option PTree
  dns : Option PTree
deriving DecidableEq, Repr

/-- Result of `_extract_wan_config`. -/
structure WanConfig where
  pppoe : PppoeCfg
  static_ip : StaticIpCfg
deriving DecidableEq, Repr

/-- Model of `ConfigBackupService._extract_wan_config`. -/
def extract_wan_config (device_data : PTree) : WanConfig :=
  let ppp := "InternetGatewayDevice.WANDevice.1.WANConnectionDevice.1.WANPPPConnection.1"
  let pppoe0 : PppoeCfg :=
    { username := cbs_get_value device_data (ppp ++ ".Username") none,
      password := cbs_get_value device_data (ppp ++ ".Password") none,
      enabled := cbs_get_value device_data (ppp ++ ".Enable") (some (.leaf (.pbool true))),
      nat_enabled := cbs_get_value device_data (ppp ++ ".NATEnabled") (some (.leaf (.pbool true))),
      mtu := cbs_get_value device_data (ppp ++ ".MaxMTUSize") none }
  let pppoe :=
    if !(pyTruthy pppoe0.username) then
      { pppoe0 with
        username := cbs_get_value device_data "Device.PPP.Interface.1.Username" none,
        password := cbs_get_value device_data "Device.PPP.Interface.1.Password" none }
    else pppoe0
  let ip := "InternetGatewayDevice.WANDevice.1.WANConnectionDevice.1.WANIPConnection.1"
  { pppoe := pppoe,
    static_ip :=
      { address := cbs_get_value device_data (ip ++ ".ExternalIPAddress") none,
        gateway := cbs_get_value device_data (ip ++ ".DefaultGateway") none,
        dns := cbs_get_value device_data (ip ++ ".DNSServers") none } }

/-- The `config["ip"]` dict of `_extract_lan_config`. -/
structure LanIpCfg where
  address : Option PTree
  subnet_mask : Option PTree
deriving DecidableEq, Repr

/-- The `config["dhcp"]` dict of `_extract_lan_config` (`end_` stands for
the source's `"end"` key, a reserved word in Lean). -/
structure DhcpCfg where
  enabled : Option PTree
  start : Option PTree
  end_ : Option PTree
  lease_time : Option PTree
  dns_servers : Option PTree
deriving DecidableEq, Repr

/-- Result of `_extract_lan_config`. -/
structure LanConfig where
  ip : LanIpCfg
  dhcp : DhcpCfg
deriving DecidableEq, Repr

/-- Model of `ConfigBackupService._extract_lan_config`. -/
def extract_lan_config (device_data : PTree) : LanConfig :=
  let lan := "InternetGatewayDevice.LANDevice.1.LANHostConfigManagement"
  { ip :=
      { address := pyOr (cbs_get_value device_data (lan ++ ".IPInterface.1.IPInterfaceIPAddress") none)
                        (cbs_get_value device_data (lan ++ ".IPAddress") none),
        subnet_mask := pyOr (cbs_get_value device_data (lan ++ ".IPInterface.1.IPInterfaceSubnetMask") none)
                            (cbs_get_value device_data (lan ++ ".SubnetMask") none) },
    dhcp :=
      { enabled := cbs_get_value device_data (lan ++ ".DHCPServerEnable") (some (.leaf (.pbool true))),
        start := cbs_get_value device_data (lan ++ ".MinAddress") none,
        end_ := cbs_get_value device_data (lan ++ ".MaxAddress") none,
        lease_time := cbs_get_value device_data (lan ++ ".DHCPLeaseTime") none,
        dns_servers := cbs_get_value device_data (lan ++ ".DNSServers") none } }

/-- One `\x7b"path", "value", "type"\x7d` restore parameter; the value is the
raw extracted tree value for SSID/password entries and a stringified leaf
for channel/enable entries. -/
abbrev Tr069Param := String × PTree × String

/-- Model of `ConfigBackupService._build_tr069_params`: restore instructions, built
only from truthy sections, in source order.  String values are passed raw;
`channel` goes through `str(...)`; `enabled` through `str(...).lower()` and
is gated by `is not None` rather than truthiness. -/
def build_tr069_params (wifi : WifiConfig) (wan : WanConfig) (lan : LanConfig) :
    List Tr069Param :=
  let params24 : List Tr069Param :=
    if pyTruthy wifi.b24.ssid then
      let pfx := "InternetGatewayDevice.LANDevice.1.WLANConfiguration.1"
      (match wifi.b24.ssid with
        | some v => if v.truthy then [((pfx ++ ".SSID"), v, "xsd:string")] else []
        | none => []) ++
      (match wifi.b24.password with
        | some v => if v.truthy then
            [((pfx ++ ".PreSharedKey.1.PreSharedKey"), v, "xsd:string"),
             ((pfx ++ ".KeyPassphrase"), v, "xsd:string")] else []
        | none => []) ++
      (match wifi.b24.channel with
        | some v => if v.truthy then [((pfx ++ ".Channel"), .leaf (.pstr (pyStr v)), "xsd:unsignedInt")] else []
        | none => []) ++
      (match wifi.b24.enabled with
        | some v => [((pfx ++ ".Enable"), .leaf (.pstr (PyStr.lower (pyStr v))), "xsd:boolean")]
        | none => [])
    else []
  let params5 : List Tr069Param :=
    if pyTruthy wifi.b5.ssid? then
      let pfx := "InternetGatewayDevice.LANDevice.1.WLANConfiguration.2"
      (match wifi.b5.ssid? with
        | some v => if v.truthy then [((pfx ++ ".SSID"), v, "xsd:string")] else []
        | none => []) ++
      (match wifi.b5.password? with
        | some v => if v.truthy then
            [((pfx ++ ".PreSharedKey.1.PreSharedKey"), v, "xsd:string"),
             ((pfx ++ ".KeyPassphrase"), v, "xsd:string")] else []
        | none => []) ++
      (match wifi.b5.channel? with
        | some v => if v.truthy then [((pfx ++ ".Channel"), .leaf (.pstr (pyStr v)), "xsd:unsignedInt")] else []
        | none => []) ++
      (match wifi.b5.enabled? with
        | some v => [((pfx ++ ".Enable"), .leaf (.pstr (PyStr.lower (pyStr v))), "xsd:boolean")]
        | none => [])
    else []
  let paramsWan : List Tr069Param :=
    if pyTruthy wan.pppoe.username then
      let pfx := "InternetGatewayDevice.WANDevice.1.WANConnectionDevice.1.WANPPPConnection.1"
      (match wan.pppoe.username with
        | some v => if v.truthy then [((pfx ++ ".Username"), v, "xsd:string")] else []
        | none => []) ++
      (match wan.pppoe.password with
        | some v => if v.truthy then [((pfx ++ ".Password"), v, "xsd:string")] else []
        | none => [])
    else []
  let paramsLan : List Tr069Param :=
    if pyTruthy lan.ip.address then
      let pfx := "InternetGatewayDevice.LANDevice.1.LANHostConfigManagement"
      (match lan.ip.address with
        | some v => if v.truthy then [((pfx ++ ".IPInterface.1.IPInterfaceIPAddress"), v, "xsd:string")] else []
        | none => []) ++
      (match lan.ip.subnet_mask with
        | some v => if v.truthy then [((pfx ++ ".IPInterface.1.IPInterfaceSubnetMask"), v, "xsd:string")] else []
        | none => [])
    else []
  params24 ++ params5 ++ paramsWan ++ paramsLan

/-- The content hash of a configuration.  The source computes
`sha256(json.dumps(\x7b"wifi", "wan", "lan"\x7d, sort_keys=True))[:16]`; the
extracted dict shapes embed injectively into their JSON serialisation, so
the hash is modelled as the canonical content itself (two configurations
collide in the model exactly when their JSON texts coincide; truncated
sha256 collisions are assumed absent, as the source does). -/
def compute_config_hash (wifi : WifiConfig) (wan : WanConfig) (lan : LanConfig) :
    WifiConfig × WanConfig × LanConfig :=
  (wifi, wan, lan)

/-- A row of the `devices` table, with the fields the service reads. -/
structure DeviceRow where
  id : Nat
  device_id : String
  serial_number : Option String
  last_inform : Option Int
deriving DecidableEq, Repr

/-- A row of the `device_config_backups` table (`DeviceConfigBackup`),
with the fields the service reads or writes. -/
structure DeviceConfigBackup where
  device_id : Nat
  serial_number : PTree
  mac_address : Option PTree
  wifi_config : WifiConfig
  wan_config : WanConfig
  lan_config : LanConfig
  tr069_params : List Tr069Param
  is_active : Bool
  is_auto_restore_enabled : Bool
  restore_count : Nat
  last_restored_at : Option Int
deriving DecidableEq, Repr

/-- The query filter of `create_backup`'s `existing` lookup:
`device_id == device.id AND is_active == True`. -/
def active_for_device (dev_id : Nat) (b : DeviceConfigBackup) : Bool :=
  b.device_id == dev_id && b.is_active

/-- Model of `query(...).filter(device_id == ..., is_active == True).first()`. -/
def find_active (store : List DeviceConfigBackup) (dev_id : Nat) :
    Option DeviceConfigBackup :=
  store.find? (active_for_device dev_id)

/-- Model of `existing.is_active = False` on the row `first()` returned: flip the
first matching row, leave the rest untouched. -/
def deactivate_first (store : List DeviceConfigBackup) (dev_id : Nat) :
    List DeviceConfigBackup :=
  match store with
  | [] => []
  | b :: rest =>
    if active_for_device dev_id b then { b with is_active := false } :: rest
    else b :: deactivate_first rest dev_id

/-- Result of `create_backup`: the backup table after the call and the
returned row (`None` is `none`). -/
structure CreateBackupResult where
  store : List DeviceConfigBackup
  result : Option DeviceConfigBackup
deriving DecidableEq, Repr

/-- The serial used by `create_backup`:
`_get_value(device_data, "_deviceId._SerialNumber") or device.serial_number`. -/
def backup_serial (device : DeviceRow) (device_data : PTree) : Option PTree :=
  pyOr (cbs_get_value device_data "_deviceId._SerialNumber" none)
       (device.serial_number.map (fun s => .leaf (.pstr s)))

/-- Model of `ConfigBackupService.create_backup`.  The `db.query(Device)` lookup is
passed in as `device?` (its result for the given `device_id`); commits and
logging carry no information.  Returns the updated table and the returned
row. -/
def create_backup (store : List DeviceConfigBackup) (device? : Option DeviceRow)
    (device_data : PTree) : CreateBackupResult :=
  match device? with
  | none => ⟨store, none⟩
  | some device =>
    let serial := backup_serial device device_data
    if !(pyTruthy serial) then ⟨store, none⟩
    else
      let mac := cbs_get_value device_data
        "InternetGatewayDevice.WANDevice.1.WANConnectionDevice.1.WANPPPConnection.1.MACAddress" none
      let wifi := extract_wifi_config device_data
      let wan := extract_wan_config device_data
      let lan := extract_lan_config device_data
      let has_wifi := pyTruthy wifi.b24.ssid
      let has_wan := pyTruthy wan.pppoe.username
      if !has_wifi && !has_wan then ⟨store, none⟩
      else
        let tr069_params := build_tr069_params wifi wan lan
        let config_hash := compute_config_hash wifi wan lan
        let newb : DeviceConfigBackup :=
          { device_id := device.id,
            serial_number := (serial.getD (.leaf (.pstr ""))),
            mac_address := mac,
            wifi_config := wifi,
            wan_config := wan,
            lan_config := lan,
            tr069_params := tr069_params,
            is_active := true,
            is_auto_restore_enabled := true,
            restore_count := 0,
            last_restored_at := none }
        match find_active store device.id with
        | some existing =>
          let existing_hash := compute_config_hash existing.wifi_config
            existing.wan_config existing.lan_config
          if existing_hash = config_hash then ⟨store, some existing⟩
          else ⟨deactivate_first store device.id ++ [newb], some newb⟩
        | none => ⟨store ++ [newb], some newb⟩

end ConfigBackupService

namespace ConfigBackupService

/-- The `default_patterns` list of `_is_default_ssid`, in source order. -/
def default_patterns : List String :=
  ["tp-link", "tplink", "archer", "deco",
   "intelbras", "twibi", "wi-force", "action",
   "zte", "zxhn", "f670", "f680",
   "huawei", "hg8", "eg8", "ont",
   "fiberhome", "an55", "hg6",
   "multilaser", "re",
   "default", "setup", "wireless"]

/-- Model of `ConfigBackupService._is_default_ssid` on a string SSID and an optional
string serial. -/
def is_default_ssid (ssid : String) (serial : Option String) : Bool :=
  if ssid = "" then false
  else
    let ssid_lower := PyStr.lower ssid
    if default_patterns.any (fun p => PyStr.strIn p ssid_lower) then true
    else if (match serial with
             | some s => s ≠ "" && PyStr.strIn (PyStr.lower s) ssid_lower
             | none => false) then true
    else if ssid.length < 4 || PyStr.isdigit ssid then true
    else false

/-- The uptime read of `detect_factory_reset`:
`_get_value(..., "InternetGatewayDevice.DeviceInfo.UpTime") or
 _get_value(..., "Device.DeviceInfo.UpTime")` (a falsy first read — `None`
or `0` — falls through to the second). -/
def uptime_value (device_data : PTree) : Option PTree :=
  pyOr (cbs_get_value device_data "InternetGatewayDevice.DeviceInfo.UpTime" none)
       (cbs_get_value device_data "Device.DeviceInfo.UpTime" none)

/-- Model of `ConfigBackupService.detect_factory_reset`.  The database lookup for
`device_data["_id"]` is passed in as `db_device`; `now` stands for
`datetime.utcnow()` and `last_inform` timestamps are in seconds, so
`time_since_last = now - last_inform`.  The `previous_uptime` argument is
kept with the source's signature.  A non-integer uptime leaf (where the
source's `int(...)` would parse a decimal string or raise) is outside every
claim's domain and yields the no-reset result. -/
def detect_factory_reset (db_device : Option DeviceRow) (now : Int)
    (device_data : PTree) (previous_uptime : Option Int) : Bool × String :=
  let serial := cbs_get_value device_data "_deviceId._SerialNumber" none
  match uptime_value device_data with
  | none => (false, "no_reset")
  | some ut =>
    match asInt ut with
    | none => (false, "no_reset")
    | some uptime =>
      if uptime < RESET_UPTIME_THRESHOLD then
        match db_device with
        | some device =>
          match device.last_inform with
          | some li =>
            let time_since_last := now - li
            if time_since_last > uptime + 60 then
              let ssid := cbs_get_value device_data
                "InternetGatewayDevice.LANDevice.1.WLANConfiguration.1.SSID" none
              let serial_str : Option String :=
                match serial with
                | some st => asStr st
                | none => none
              let ssid_is_default : Bool :=
                match ssid with
                | some t =>
                  t.truthy && (match asStr t with
                               | some s => is_default_ssid s serial_str
                               | none => false)
                | none => false
              if ssid_is_default then (true, "factory_reset_detected")
              else
                let pppoe_user := cbs_get_value device_data
                  "InternetGatewayDevice.WANDevice.1.WANConnectionDevice.1.WANPPPConnection.1.Username" none
                if !(pyTruthy pppoe_user) then (true, "pppoe_config_lost")
                else (true, "uptime_reset_detected")
            else (false, "no_reset")
          | none => (false, "no_reset")
        | none => (false, "no_reset")
      else (false, "no_reset")

/-- The query filter of `get_active_backup`:
`serial_number == ... AND is_active AND is_auto_restore_enabled`. -/
def restorable_for_serial (serial_number : String) (b : DeviceConfigBackup) : Bool :=
  b.serial_number == .leaf (.pstr serial_number) && b.is_active && b.is_auto_restore_enabled

/-- Model of `ConfigBackupService.get_active_backup`. -/
def get_active_backup (store : List DeviceConfigBackup) (serial_number : String) :
    Option DeviceConfigBackup :=
  store.find? (restorable_for_serial serial_number)

/-- Update (in place) the row that `get_active_backup` returned: apply `f`
to the first matching row. -/
def update_first_restorable (store : List DeviceConfigBackup)
    (serial_number : String) (f : DeviceConfigBackup → DeviceConfigBackup) :
    List DeviceConfigBackup :=
  match store with
  | [] => []
  | b :: rest =>
    if restorable_for_serial serial_number b then f b :: rest
    else b :: update_first_restorable rest serial_number f

/-- A row of the `device_bootstrap_events` table, with the fields
`auto_restore_config` writes. -/
structure BootstrapEvent where
  device_id : Nat
  serial_number : String
  genie_device_id : String
  event_type : String
  action_taken : String
  restore_status : String
deriving DecidableEq, Repr

/-- Model of `ConfigBackupService._send_restore_task`, with the controller's HTTP
response status injected: an empty parameter list returns `False` without
posting; otherwise exactly one `setParameterValues` batch carrying
`[p["path"], p["value"], p.get("type", "xsd:string")]` triples is posted and
the call succeeds exactly on a 200 or 202 status.  (The `TaskHistory`
bookkeeping row written on success carries no claim-relevant state and is
not modelled.)  Returns `(posted batches, success)`. -/
def send_restore_task (params : List Tr069Param) (status : Nat) :
    List (List Tr069Param) × Bool :=
  if params.isEmpty then ([], false)
  else ([params], status == 200 || status == 202)

/-- Observable outcome of `auto_restore_config`: the backup table, the
bootstrap-event table, the batches posted to the ACS, and the returned
boolean. -/
structure RestoreOutcome where
  store : List DeviceConfigBackup
  events : List BootstrapEvent
  submitted : List (List Tr069Param)
  result : Bool
deriving DecidableEq, Repr

/-- Model of `ConfigBackupService.auto_restore_config`.  `status` is the ACS task
endpoint's HTTP response; `now` is `datetime.utcnow()`.  (The
`if not backup.is_auto_restore_enabled` re-check of the source is
unreachable, because `get_active_backup` already filters on the flag; it is
kept for fidelity.) -/
def auto_restore_config (store : List DeviceConfigBackup)
    (events : List BootstrapEvent) (device_id : String) (serial_number : String)
    (status : Nat) (now : Int) : RestoreOutcome :=
  match get_active_backup store serial_number with
  | none => ⟨store, events, [], false⟩
  | some backup =>
    if !backup.is_auto_restore_enabled then ⟨store, events, [], false⟩
    else
      let ev : BootstrapEvent :=
        { device_id := backup.device_id,
          serial_number := serial_number,
          genie_device_id := device_id,
          event_type := "auto_restore_triggered",
          action_taken := "auto_restore",
          restore_status := "pending" }
      let sent := send_restore_task backup.tr069_params status
      if sent.2 then
        ⟨update_first_restorable store serial_number (fun b =>
            { b with restore_count := b.restore_count + 1, last_restored_at := some now }),
         events ++ [{ ev with restore_status := "success" }], sent.1, true⟩
      else
        ⟨store, events ++ [{ ev with restore_status := "failed" }], sent.1, false⟩

/-- Model of `ConfigBackupService.toggle_auto_restore` (note: the lookup goes through
`get_active_backup`, which filters on `is_auto_restore_enabled == True`). -/
def toggle_auto_restore (store : List DeviceConfigBackup) (serial_number : String)
    (enabled : Bool) : List DeviceConfigBackup × Bool :=
  match get_active_backup store serial_number with
  | none => (store, false)
  | some _ =>
    (update_first_restorable store serial_number
      (fun b => { b with is_auto_restore_enabled := enabled }), true)

end ConfigBackupService

-- ===========================================================================
-- Concrete fixtures used by counterexamples and witnesses.
-- ===========================================================================

namespace Fixtures

open ConfigBackupService

/-- A legacy-dialect document: `InternetGatewayDevice` with the standard
`DeviceInfo` child (no `Device` key anywhere). -/
def igdWithDeviceInfo : PTree :=
  tobj [("InternetGatewayDevice", tobj
    [("DeviceInfo", tobj [("Manufacturer", vstr "TP-Link")])])]

/-- A legacy-dialect document without `DeviceInfo` or `Device` keys. -/
def igdPlain : PTree :=
  tobj [("InternetGatewayDevice", tobj [("LANDevice", tobj [])])]

/-- A flat-dialect document (`Device` key present). -/
def flatDevice : PTree :=
  tobj [("Device", tobj [("WiFi", tobj [])])]

/-- WLAN object with both the base `PreSharedKey` and the vendor
`X_TP_PreSharedKey` parameter, carrying different values. -/
def wlanBothPasswords : PTree :=
  tobj [("InternetGatewayDevice", tobj [("LANDevice", tobj [("1", tobj
    [("WLANConfiguration", tobj [("1", tobj
      [("PreSharedKey", vstr "BASEPASS"),
       ("X_TP_PreSharedKey", vstr "VENDORPASS")])])])])])]

/-- WLAN object carrying only the vendor `X_TP_PreSharedKey` parameter. -/
def wlanAltPassword : PTree :=
  tobj [("InternetGatewayDevice", tobj [("LANDevice", tobj [("1", tobj
    [("WLANConfiguration", tobj [("1", tobj
      [("X_TP_PreSharedKey", vstr "VENDORPASS")])])])])])]

/-- Radio table in which radios 1 and 2 both declare a 2.4 GHz band. -/
def radiosBoth24 : PTree :=
  tobj [("1", tobj [("OperatingFrequencyBand", vstr "2.4GHz")]),
        ("2", tobj [("OperatingFrequencyBand", vstr "2.4GHz")])]

/-- A document with a 2.4 GHz SSID (`WLANConfiguration.1.SSID`). -/
def data24 : PTree :=
  tobj [("InternetGatewayDevice", tobj [("LANDevice", tobj [("1", tobj
    [("WLANConfiguration", tobj [("1", tobj [("SSID", vstr "MyWifi")])])])])])]

/-- Like `data24` but with a different SSID value (so a different content
hash). -/
def data24b : PTree :=
  tobj [("InternetGatewayDevice", tobj [("LANDevice", tobj [("1", tobj
    [("WLANConfiguration", tobj [("1", tobj [("SSID", vstr "OtherWifi")])])])])])]

/-- A document whose only configuration is a 5 GHz SSID
(`WLANConfiguration.2.SSID`). -/
def data5only : PTree :=
  tobj [("InternetGatewayDevice", tobj [("LANDevice", tobj [("1", tobj
    [("WLANConfiguration", tobj [("2", tobj [("SSID", vstr "Wifi5")])])])])])]

/-- An empty document (no configuration at all). -/
def dataEmpty : PTree := tobj []

/-- A document reporting a given uptime under
`InternetGatewayDevice.DeviceInfo.UpTime`. -/
def dataUptime (n : Int) : PTree :=
  tobj [("InternetGatewayDevice", tobj [("DeviceInfo", tobj [("UpTime", vint n)])])]

/-- Device row 1, serial `"S"`. -/
def dev1 : DeviceRow := ⟨1, "genie-dev-1", some "S", none⟩

/-- Device row 2 (a different database row) with the same serial `"S"`. -/
def dev2 : DeviceRow := ⟨2, "genie-dev-2", some "S", none⟩

/-- Device row 1 with a recorded `last_inform` timestamp. -/
def devKnown : DeviceRow := ⟨1, "genie-dev-1", some "S", some 0⟩

/-- The active snapshot that `create_backup Fixtures.data24` would store for
device row 1. -/
def snapA : DeviceConfigBackup :=
  { device_id := 1,
    serial_number := .leaf (.pstr "S"),
    mac_address := none,
    wifi_config := extract_wifi_config data24,
    wan_config := extract_wan_config data24,
    lan_config := extract_lan_config data24,
    tr069_params := build_tr069_params (extract_wifi_config data24)
      (extract_wan_config data24) (extract_lan_config data24),
    is_active := true,
    is_auto_restore_enabled := true,
    restore_count := 0,
    last_restored_at := none }

/-- An active, restore-enabled snapshot for serial `"S"` with one stored
write instruction. -/
def snapRestorable : DeviceConfigBackup :=
  { snapA with tr069_params :=
      [("InternetGatewayDevice.LANDevice.1.WLANConfiguration.1.SSID",
        .leaf (.pstr "MyWifi"), "xsd:string")] }

end Fixtures

-- ===========================================================================
-- Derived observations used in claim statements.
-- ===========================================================================

namespace ConfigBackupService

/-- Number of rows that are active and carry the given stored serial value. -/
def count_active_serial (store : List DeviceConfigBackup) (s : PTree) : Nat :=
  (store.filter (fun b => b.serial_number == s && b.is_active)).length

/-- Number of active rows for a given device row id. -/
def count_active_dev (store : List DeviceConfigBackup) (dev_id : Nat) : Nat :=
  (store.filter (active_for_device dev_id)).length

end ConfigBackupService

-- ===========================================================================
-- Claims
-- ===========================================================================

/-- C2, counterexample: a legacy tree that contains `InternetGatewayDevice`
(and its ordinary `DeviceInfo` child) but no `Device` key at all — hence no
dialect-B marker in the claim's sense — is classified TR-181, not TR-098,
because `detect_data_model` prefers TR-181 as soon as a `Device` *or*
`DeviceInfo` key occurs anywhere. -/
theorem C2_counterexample :
    TR069Normalizer.contains_key_recursive Fixtures.igdWithDeviceInfo "InternetGatewayDevice" = true ∧
    TR069Normalizer.contains_key_recursive Fixtures.igdWithDeviceInfo "Device" = false ∧
    TR069Normalizer.detect_data_model Fixtures.igdWithDeviceInfo ≠ .TR098 ∧
    TR069Normalizer.detect_data_model Fixtures.igdWithDeviceInfo = .TR181 := by decide

/-- C2 (amended): `detect_data_model` classifies a tree as TR-181 whenever a
`Device` or a `DeviceInfo` key occurs at any depth; TR-098 is chosen
structurally only when neither occurs and `InternetGatewayDevice` occurs. -/
theorem C2_structural_detection (t : PTree) :
    (TR069Normalizer.contains_key_recursive t "Device" = true ∨
       TR069Normalizer.contains_key_recursive t "DeviceInfo" = true →
     TR069Normalizer.detect_data_model t = .TR181) ∧
    (TR069Normalizer.contains_key_recursive t "Device" = false →
     TR069Normalizer.contains_key_recursive t "DeviceInfo" = false →
     TR069Normalizer.contains_key_recursive t "InternetGatewayDevice" = true →
     TR069Normalizer.detect_data_model t = .TR098) := by
  constructor
  · intro h
    unfold TR069Normalizer.detect_data_model
    rcases h with h | h <;> simp [h]
  · intro h1 h2 h3
    unfold TR069Normalizer.detect_data_model
    simp [h1, h2, h3]

/-- C2, witness for `C2_structural_detection` at concrete trees. -/
theorem C2_structural_detection_witness :
    TR069Normalizer.detect_data_model Fixtures.flatDevice = .TR181 ∧
    TR069Normalizer.detect_data_model Fixtures.igdPlain = .TR098 :=
  ⟨(C2_structural_detection Fixtures.flatDevice).1 (Or.inl (by decide)),
   (C2_structural_detection Fixtures.igdPlain).2 (by decide) (by decide) (by decide)⟩

/-- C4, counterexample: radios 1 and 2 both declare a 2.4 GHz band, and the
resolver assigns the band radio index `"2"` — the *last* matching radio in
scan order — not the lowest-numbered one (`"1"`) the claim requires. -/
theorem C4_counterexample :
    PyStr.strIn "2.4" (MobileApi.band_of (some Fixtures.radiosBoth24) "1") = true ∧
    PyStr.strIn "2.4" (MobileApi.band_of (some Fixtures.radiosBoth24) "2") = true ∧
    MobileApi.detect_radio_idx (some Fixtures.radiosBoth24) ≠ (some "1", none) ∧
    MobileApi.detect_radio_idx (some Fixtures.radiosBoth24) = (some "2", none) := by decide

/-- C5, counterexample: with both the base `PreSharedKey` parameter
(`"BASEPASS"`) and the vendor `X_TP_PreSharedKey` parameter (`"VENDORPASS"`)
present with different non-empty values, the password read returns the base
path's value, not the vendor path's. -/
theorem C5_counterexample :
    get_value_by_path Fixtures.wlanBothPasswords
      "InternetGatewayDevice.LANDevice.1.WLANConfiguration.1.X_TP_PreSharedKey" none
      = some (PTree.leaf (.pstr "VENDORPASS")) ∧
    (TR069Normalizer.get_wifi_params Fixtures.wlanBothPasswords 1).password
      ≠ some (.leaf (.pstr "VENDORPASS")) ∧
    (TR069Normalizer.get_wifi_params Fixtures.wlanBothPasswords 1).password
      = some (.leaf (.pstr "BASEPASS")) := by decide

/-- C6, counterexample: for a logical name absent from the path table,
`build_set_params` does not refuse — it emits a write triple whose path is
the unmapped logical name itself. -/
theorem C6_counterexample :
    TR069Normalizer.PARAM_MAP "nonexistent.logical" = none ∧
    TR069Normalizer.build_set_params Fixtures.dataEmpty
      [⟨"nonexistent.logical", .pstr "x", none, []⟩]
      = [("nonexistent.logical", "x", "xsd:string")] := by decide

/-- C6 (amended): for a logical name absent from the path table, `get_value`
falls back to reading the logical name as a literal path and returns the
caller's default when the tree lacks it, while `build_set_params` still
emits one `(path, value, type)` triple per request, using the unmapped
logical name itself as the path. -/
theorem C6_unmapped_logical_name (device : PTree) (lp : String) (v : PVal)
    (default : Option PTree)
    (hmap : TR069Normalizer.PARAM_MAP lp = none)
    (habs : walkParts (some device) (PyStr.splitCh lp '.') = none) :
    TR069Normalizer.get_value device lp [] default = default ∧
    TR069Normalizer.build_set_params device [⟨lp, v, none, []⟩] =
      [(lp, pyStr (.leaf v), TR069Normalizer.infer_xsd_type v)] := by
  have hpath : TR069Normalizer.get_path device lp [] = lp := by
    unfold TR069Normalizer.get_path
    simp [hmap]
  have hwalk : get_value_by_path device lp default = default := by
    unfold get_value_by_path
    simp [habs]
  have hwalkn : get_value_by_path device lp none = none := by
    unfold get_value_by_path
    simp [habs]
  constructor
  · unfold TR069Normalizer.get_value
    simp [hmap, hpath, TR069Normalizer.try_paths, TR069Normalizer.substVars, hwalk, hwalkn]
  · unfold TR069Normalizer.build_set_params
    simp [hpath]

/-- C6, witness for `C6_unmapped_logical_name` at a concrete device and
logical name. -/
theorem C6_unmapped_logical_name_witness :
    TR069Normalizer.get_value Fixtures.dataEmpty "nonexistent.logical" [] none = none ∧
    TR069Normalizer.build_set_params Fixtures.dataEmpty
      [⟨"nonexistent.logical", .pstr "x", none, []⟩]
      = [("nonexistent.logical", "x", "xsd:string")] :=
  C6_unmapped_logical_name Fixtures.dataEmpty "nonexistent.logical" (.pstr "x") none
    (by decide) (by decide)

/-- C10: whenever the reported uptime is absent (including the source's
falsy fall-through) or is at least `RESET_UPTIME_THRESHOLD = 600` seconds,
`detect_factory_reset` returns `(false, "no_reset")`, whatever the database
state, the clock, the SSID, the PPPoE credentials, or the (unused)
`previous_uptime` argument. -/
theorem C10_no_reset_at_or_above_threshold (db : Option ConfigBackupService.DeviceRow)
    (now : Int) (data : PTree) (prev : Option Int)
    (h : ConfigBackupService.uptime_value data = none ∨
         ∃ u : Int, ConfigBackupService.uptime_value data = some (.leaf (.pint u)) ∧
           ConfigBackupService.RESET_UPTIME_THRESHOLD ≤ u) :
    ConfigBackupService.detect_factory_reset db now data prev = (false, "no_reset") := by
  unfold ConfigBackupService.detect_factory_reset
  rcases h with h | ⟨u, h, hu⟩
  · simp [h]
  · simp [h, ConfigBackupService.asInt]
    intro hlt
    exact absurd hlt (by omega)

/-- C10, witness: a device reporting one day of uptime never triggers a
reset report, even for a known device with an old `last_inform`. -/
theorem C10_no_reset_witness :
    ConfigBackupService.detect_factory_reset (some Fixtures.devKnown) 100000
      (Fixtures.dataUptime 86400) none = (false, "no_reset") :=
  C10_no_reset_at_or_above_threshold (some Fixtures.devKnown) 100000
    (Fixtures.dataUptime 86400) none (Or.inr ⟨86400, by decide, by decide⟩)

/-- Helper: the radio loop overwrites on every match, so folding it equals
taking the last matching index (first match of the reversed scan), with the
accumulator as fallback. -/
theorem radio_step_foldl (radios : Option PTree) (l : List String)
    (acc : Option String × Option String) :
    l.foldl (MobileApi.radio_step radios) acc =
      ((l.reverse.find? fun i => PyStr.strIn "2.4" (MobileApi.band_of radios i)).or acc.1,
       (l.reverse.find? fun i => !PyStr.strIn "2.4" (MobileApi.band_of radios i)
          && PyStr.strIn "5" (MobileApi.band_of radios i)).or acc.2) := by
  induction l generalizing acc with
  | nil => simp
  | cons i t ih =>
    rcases acc with ⟨a1, a2⟩
    simp only [List.foldl_cons, ih, List.reverse_cons, List.find?_append, Option.or_assoc]
    by_cases h24 : PyStr.strIn "2.4" (MobileApi.band_of radios i) <;>
      by_cases h5 : PyStr.strIn "5" (MobileApi.band_of radios i) <;>
        simp [MobileApi.radio_step, h24, h5, List.find?]

/-- Helper: the SSID loop keeps the first match (`is None` guard), so folding
it equals the accumulator with the first matching index as fallback. -/
theorem ssid_step_foldl (ssids : Option PTree) (r2 r5 : Option String)
    (l : List String) (acc : Option String × Option String) :
    l.foldl (MobileApi.ssid_step ssids r2 r5) acc =
      (acc.1.or (l.find? fun i => MobileApi.references_radio r2 (MobileApi.lower_layers_of ssids i)),
       acc.2.or (l.find? fun i =>
         !MobileApi.references_radio r2 (MobileApi.lower_layers_of ssids i)
           && MobileApi.references_radio r5 (MobileApi.lower_layers_of ssids i))) := by
  induction l generalizing acc with
  | nil => simp
  | cons i t ih =>
    rcases acc with ⟨a1, a2⟩
    simp only [List.foldl_cons, ih, List.find?_cons]
    by_cases h2 : MobileApi.references_radio r2 (MobileApi.lower_layers_of ssids i) <;>
      by_cases h5 : MobileApi.references_radio r5 (MobileApi.lower_layers_of ssids i) <;>
        cases a1 <;> cases a2 <;>
          simp [MobileApi.ssid_step, h2, h5]

/-- C4 (amended): for a dialect-B tree, each band's radio index is the
*last* radio in scan order 1–4 whose band string matches (`"2.4"`
substring for 2.4 GHz; `"5"` substring — and not `"2.4"` — for 5 GHz), so
when several radios claim a band the highest-numbered match wins, not the
lowest; the band's primary SSID index, by contrast, is the *first* SSID in
scan order 1–8 whose `LowerLayers` back-reference contains
`"Radio.<idx>"` for that band's radio (an SSID matching the 2.4 GHz radio
is never considered for 5 GHz). -/
theorem C4_radio_ssid_index_resolution (radios ssids : Option PTree)
    (r2 r5 : Option String) :
    MobileApi.detect_radio_idx radios =
      ((["4", "3", "2", "1"]).find? (fun i => PyStr.strIn "2.4" (MobileApi.band_of radios i)),
       (["4", "3", "2", "1"]).find? (fun i =>
         !PyStr.strIn "2.4" (MobileApi.band_of radios i)
           && PyStr.strIn "5" (MobileApi.band_of radios i))) ∧
    MobileApi.detect_ssid_idx ssids r2 r5 =
      ((["1", "2", "3", "4", "5", "6", "7", "8"]).find? (fun i =>
         MobileApi.references_radio r2 (MobileApi.lower_layers_of ssids i)),
       (["1", "2", "3", "4", "5", "6", "7", "8"]).find? (fun i =>
         !MobileApi.references_radio r2 (MobileApi.lower_layers_of ssids i)
           && MobileApi.references_radio r5 (MobileApi.lower_layers_of ssids i))) := by
  constructor
  · have h := radio_step_foldl radios ["1", "2", "3", "4"] (none, none)
    simpa [MobileApi.detect_radio_idx] using h
  · have h := ssid_step_foldl ssids r2 r5 ["1", "2", "3", "4", "5", "6", "7", "8"] (none, none)
    simpa [MobileApi.detect_ssid_idx] using h

/-- C5 (amended): the password read consults the base `wifi.security.password`
paths before the vendor `wifi.security.password.alt` (`X_TP_PreSharedKey`)
path: on a TR-098-detected tree, a found, non-empty value at the base
`PreSharedKey` path is returned outright, and the vendor path's value is
returned only when both base dialect paths yield nothing. -/
theorem C5_password_read_precedence (device : PTree) (radio : Int)
    (h98 : TR069Normalizer.detect_data_model device = .TR098) :
    (∀ v : PTree,
      get_value_by_path device
        (TR069Normalizer.substVars
          "InternetGatewayDevice.LANDevice.1.WLANConfiguration.\x7bradio\x7d.PreSharedKey"
          [("radio", toString radio)]) none = some v →
      TR069Normalizer.found_value v = true →
      (TR069Normalizer.get_wifi_params device radio).password = some v) ∧
    (∀ v : PTree,
      get_value_by_path device
        (TR069Normalizer.substVars
          "InternetGatewayDevice.LANDevice.1.WLANConfiguration.\x7bradio\x7d.PreSharedKey"
          [("radio", toString radio)]) none = none →
      get_value_by_path device
        (TR069Normalizer.substVars
          "Device.WiFi.AccessPoint.\x7bradio\x7d.Security.KeyPassphrase"
          [("radio", toString radio)]) none = none →
      get_value_by_path device
        (TR069Normalizer.substVars
          "InternetGatewayDevice.LANDevice.1.WLANConfiguration.\x7bradio\x7d.X_TP_PreSharedKey"
          [("radio", toString radio)]) none = some v →
      TR069Normalizer.found_value v = true →
      (TR069Normalizer.get_wifi_params device radio).password = some v) := by
  have hpm : TR069Normalizer.PARAM_MAP "wifi.security.password" =
      some ("InternetGatewayDevice.LANDevice.1.WLANConfiguration.\x7bradio\x7d.PreSharedKey",
            "Device.WiFi.AccessPoint.\x7bradio\x7d.Security.KeyPassphrase") := rfl
  have hpm2 : TR069Normalizer.PARAM_MAP "wifi.security.password.alt" =
      some ("InternetGatewayDevice.LANDevice.1.WLANConfiguration.\x7bradio\x7d.X_TP_PreSharedKey",
            "Device.WiFi.AccessPoint.\x7bradio\x7d.Security.KeyPassphrase") := rfl
  constructor
  · intro v ha hf
    unfold TR069Normalizer.get_wifi_params
    simp only [TR069Normalizer.get_value_multi, TR069Normalizer.get_value, hpm, h98,
      TR069Normalizer.try_paths]
    simp [ha, hf]
  · intro v hb1 hb2 hb3 hf
    unfold TR069Normalizer.get_wifi_params
    simp only [TR069Normalizer.get_value_multi, TR069Normalizer.get_value, hpm, hpm2, h98,
      TR069Normalizer.try_paths, TR069Normalizer.get_path]
    simp [hb1, hb2, hb3, hf]

/-- C5, witness for `C5_password_read_precedence`: with both parameters
present the base value `"BASEPASS"` is returned; with only the vendor
parameter present its value `"VENDORPASS"` is returned. -/
theorem C5_password_read_precedence_witness :
    (TR069Normalizer.get_wifi_params Fixtures.wlanBothPasswords 1).password
      = some (.leaf (.pstr "BASEPASS")) ∧
    (TR069Normalizer.get_wifi_params Fixtures.wlanAltPassword 1).password
      = some (.leaf (.pstr "VENDORPASS")) :=
  ⟨(C5_password_read_precedence Fixtures.wlanBothPasswords 1 (by decide)).1
      (.leaf (.pstr "BASEPASS")) (by decide) (by decide),
   (C5_password_read_precedence Fixtures.wlanAltPassword 1 (by decide)).2
      (.leaf (.pstr "VENDORPASS")) (by decide) (by decide) (by decide) (by decide)⟩

/-- C9: every snapshot newly created by `create_backup` is appended with
`is_auto_restore_enabled = true` (and `is_active = true`), regardless of the
flags on any previously active snapshot; in every other case the store is
returned unchanged.  Consequently a disabled auto-restore flag survives only
until the next configuration change replaces the active snapshot. -/
theorem C9_new_snapshot_flag (store : List ConfigBackupService.DeviceConfigBackup)
    (device? : Option ConfigBackupService.DeviceRow) (data : PTree) :
    (ConfigBackupService.create_backup store device? data).store = store ∨
    ∃ pre newb, (ConfigBackupService.create_backup store device? data).store = pre ++ [newb] ∧
      newb.is_auto_restore_enabled = true ∧ newb.is_active = true := by
  unfold ConfigBackupService.create_backup
  cases device? with
  | none => exact Or.inl rfl
  | some dev =>
    simp only []
    split
    · exact Or.inl rfl
    · split
      · exact Or.inl rfl
      · split
        · split
          · exact Or.inl rfl
          · exact Or.inr ⟨_, _, rfl, rfl, rfl⟩
        · exact Or.inr ⟨_, _, rfl, rfl, rfl⟩

/-- C3 (amended): `detect_factory_reset` never reads its `previous_uptime`
argument — the result is identical for any two values of it — and a reset is
reported only when the current uptime is present, below
`RESET_UPTIME_THRESHOLD = 600` seconds, the device is known with a recorded
`last_inform`, and more time elapsed since `last_inform` than
`uptime + 60` seconds.  An uptime regression with a current uptime of at
least 600 seconds is never reported, and no reason string
`"uptime-regression"` exists. -/
theorem C3_reset_detector_characterization :
    (∀ (db : Option ConfigBackupService.DeviceRow) (now : Int) (data : PTree)
       (p q : Option Int),
       ConfigBackupService.detect_factory_reset db now data p =
       ConfigBackupService.detect_factory_reset db now data q) ∧
    (∀ (db : Option ConfigBackupService.DeviceRow) (now : Int) (data : PTree)
       (p : Option Int),
       (ConfigBackupService.detect_factory_reset db now data p).1 = true →
       ∃ (ut : PTree) (u : Int) (dev : ConfigBackupService.DeviceRow) (li : Int),
         ConfigBackupService.uptime_value data = some ut ∧
         ConfigBackupService.asInt ut = some u ∧
         u < ConfigBackupService.RESET_UPTIME_THRESHOLD ∧
         db = some dev ∧ dev.last_inform = some li ∧
         now - li > u + 60) := by
  constructor
  · intro db now data p q
    rfl
  · intro db now data p h
    unfold ConfigBackupService.detect_factory_reset at h
    split at h
    · simp at h
    · rename_i ut hut
      split at h
      · simp at h
      · rename_i u hu
        split at h
        · rename_i hlt
          split at h
          · rename_i dev
            split at h
            · rename_i li hli
              by_cases htime : now - li > u + 60
              · exact ⟨ut, u, dev, li, hut, hu, hlt, rfl, hli, htime⟩
              · simp [htime] at h
            · simp at h
          · simp at h
        · simp at h

/-- C3, counterexample: the uptime sequence 86400 → 1000 is a strict
regression for a known device whose corroborating conditions all hold
(`last_inform` far in the past), yet no reset is reported, because the
current uptime is not below the 600-second threshold
(`previous_uptime` is ignored entirely). -/
theorem C3_counterexample :
    (1000 : Int) < 86400 ∧
    ConfigBackupService.detect_factory_reset (some Fixtures.devKnown) 100000
      (Fixtures.dataUptime 1000) (some 86400) = (false, "no_reset") := by decide

/-- C3, witness for `C3_reset_detector_characterization` at concrete inputs:
the result is independent of `previous_uptime`, and a concrete reported
reset (uptime 120 on a known device) satisfies the characterization. -/
theorem C3_characterization_witness :
    ConfigBackupService.detect_factory_reset (some Fixtures.devKnown) 100000
        (Fixtures.dataUptime 120) (some 86400) =
      ConfigBackupService.detect_factory_reset (some Fixtures.devKnown) 100000
        (Fixtures.dataUptime 120) (some 10) ∧
    (∃ (ut : PTree) (u : Int) (dev : ConfigBackupService.DeviceRow) (li : Int),
      ConfigBackupService.uptime_value (Fixtures.dataUptime 120) = some ut ∧
      ConfigBackupService.asInt ut = some u ∧
      u < ConfigBackupService.RESET_UPTIME_THRESHOLD ∧
      (some Fixtures.devKnown : Option ConfigBackupService.DeviceRow) = some dev ∧
      dev.last_inform = some li ∧
      (100000 : Int) - li > u + 60) :=
  ⟨C3_reset_detector_characterization.1 (some Fixtures.devKnown) 100000
      (Fixtures.dataUptime 120) (some 86400) (some 10),
   C3_reset_detector_characterization.2 (some Fixtures.devKnown) 100000
      (Fixtures.dataUptime 120) none (by decide)⟩

/-- C7, counterexample: a tree containing only a 5 GHz SSID
(`WLANConfiguration.2.SSID`) yields no snapshot — `create_backup` returns
`none` — although a Wi-Fi SSID was found, because only the 2.4 GHz SSID and
the PPPoE username are consulted. -/
theorem C7_counterexample :
    ConfigBackupService.cbs_get_value Fixtures.data5only
      "InternetGatewayDevice.LANDevice.1.WLANConfiguration.2.SSID" none
      = some (.leaf (.pstr "Wifi5")) ∧
    ConfigBackupService.create_backup [] (some Fixtures.dev1) Fixtures.data5only
      = ⟨[], none⟩ := by decide

/-- C7 (amended): for a found device with a truthy serial, `create_backup`
returns no snapshot exactly when the extracted 2.4 GHz SSID (after the
TR-181 fallback) is not truthy *and* the extracted PPPoE username (after its
fallback) is not truthy; the 5 GHz band is never consulted. -/
theorem C7_backup_none_iff (store : List ConfigBackupService.DeviceConfigBackup)
    (dev : ConfigBackupService.DeviceRow) (data : PTree)
    (hserial : pyTruthy (ConfigBackupService.backup_serial dev data) = true) :
    (ConfigBackupService.create_backup store (some dev) data).result = none ↔
      (pyTruthy (ConfigBackupService.extract_wifi_config data).b24.ssid = false ∧
       pyTruthy (ConfigBackupService.extract_wan_config data).pppoe.username = false) := by
  unfold ConfigBackupService.create_backup
  simp only [hserial, Bool.not_true, Bool.false_eq_true, if_false]
  by_cases hw : pyTruthy (ConfigBackupService.extract_wifi_config data).b24.ssid
  · rw [if_neg (by simp [hw])]
    constructor
    · intro h
      exfalso
      revert h
      cases hfa : ConfigBackupService.find_active store dev.id with
      | some ex => simp only [hfa]; split <;> simp
      | none => simp [hfa]
    · rintro ⟨h1, _⟩
      exact absurd hw (by simp [h1])
  · by_cases hn : pyTruthy (ConfigBackupService.extract_wan_config data).pppoe.username
    · rw [if_neg (by simp [hw, hn])]
      constructor
      · intro h
        exfalso
        revert h
        cases hfa : ConfigBackupService.find_active store dev.id with
        | some ex => simp only [hfa]; split <;> simp
        | none => simp [hfa]
      · rintro ⟨_, h2⟩
        exact absurd hn (by simp [h2])
    · rw [if_pos (by simp [hw, hn])]
      simp [hw, hn]

/-- C7, witness for `C7_backup_none_iff`: the 5 GHz-only tree satisfies both
absence conditions, so the backup is refused. -/
theorem C7_backup_none_iff_witness :
    (ConfigBackupService.create_backup [] (some Fixtures.dev1) Fixtures.data5only).result
      = none :=
  (C7_backup_none_iff [] Fixtures.dev1 Fixtures.data5only (by decide)).mpr
    ⟨by decide, by decide⟩

/-- C8, counterexample: a 201 response is a 2xx success, yet the restore is
recorded as failed — the event status is `"failed"`, the returned value is
`False`, and the snapshot's restore counter and timestamp are unchanged —
because the source accepts only 200 and 202. -/
theorem C8_counterexample :
    (200 : Nat) ≤ 201 ∧ (201 : Nat) < 300 ∧
    ConfigBackupService.auto_restore_config [Fixtures.snapRestorable] []
        "genie-dev-1" "S" 201 1000 =
      ⟨[Fixtures.snapRestorable],
       [⟨1, "S", "genie-dev-1", "auto_restore_triggered", "auto_restore", "failed"⟩],
       [Fixtures.snapRestorable.tr069_params], false⟩ := by decide

/-- C8 (amended): `auto_restore_config` returns the skipped outcome (nothing
submitted, no event written, `False`) when no stored snapshot is active and
auto-restore-enabled for the serial; otherwise it submits the snapshot's
stored write instructions as one batched task, and on a 200 or 202 response
(not any 2xx) it marks the event `"success"`, increments the restore counter
and stamps the last-restored time, while on any other response it marks the
event `"failed"` and leaves the snapshot row unchanged. -/
theorem C8_restore_outcomes
    (store : List ConfigBackupService.DeviceConfigBackup)
    (events : List ConfigBackupService.BootstrapEvent)
    (device_id serial : String) (status : Nat) (now : Int) :
    (ConfigBackupService.get_active_backup store serial = none →
      ConfigBackupService.auto_restore_config store events device_id serial status now =
        ⟨store, events, [], false⟩) ∧
    (∀ b, ConfigBackupService.get_active_backup store serial = some b →
      b.tr069_params ≠ [] → (status = 200 ∨ status = 202) →
      ConfigBackupService.auto_restore_config store events device_id serial status now =
        ⟨ConfigBackupService.update_first_restorable store serial (fun x =>
            { x with restore_count := x.restore_count + 1, last_restored_at := some now }),
         events ++ [⟨b.device_id, serial, device_id, "auto_restore_triggered",
                     "auto_restore", "success"⟩],
         [b.tr069_params], true⟩) ∧
    (∀ b, ConfigBackupService.get_active_backup store serial = some b →
      status ≠ 200 → status ≠ 202 →
      ConfigBackupService.auto_restore_config store events device_id serial status now =
        ⟨store,
         events ++ [⟨b.device_id, serial, device_id, "auto_restore_triggered",
                     "auto_restore", "failed"⟩],
         (ConfigBackupService.send_restore_task b.tr069_params status).1, false⟩) := by
  refine ⟨fun h => ?_, fun b hb hp hs => ?_, fun b hb h200 h202 => ?_⟩
  · unfold ConfigBackupService.auto_restore_config
    rw [h]
  · have hflag : b.is_auto_restore_enabled = true := by
      have := List.find?_some hb
      unfold ConfigBackupService.restorable_for_serial at this
      simp only [Bool.and_eq_true] at this
      exact this.2
    have hne : b.tr069_params.isEmpty = false := by
      cases hpe : b.tr069_params with
      | nil => exact absurd hpe hp
      | cons x xs => simp [hpe]
    unfold ConfigBackupService.auto_restore_config
    rw [hb]
    simp only [hflag, Bool.not_true, Bool.false_eq_true, if_false]
    unfold ConfigBackupService.send_restore_task
    rcases hs with rfl | rfl <;> simp [hne]
  · have hflag : b.is_auto_restore_enabled = true := by
      have := List.find?_some hb
      unfold ConfigBackupService.restorable_for_serial at this
      simp only [Bool.and_eq_true] at this
      exact this.2
    have hsf : ((status == 200) || (status == 202)) = false := by
      simp [h200, h202]
    unfold ConfigBackupService.auto_restore_config
    rw [hb]
    simp only [hflag, Bool.not_true, Bool.false_eq_true, if_false]
    unfold ConfigBackupService.send_restore_task
    split <;> simp [hsf]

/-- C8, witness for `C8_restore_outcomes` at concrete stores: the empty
store skips; a 202 response restores and updates; a 404 response fails and
leaves the store unchanged. -/
theorem C8_restore_outcomes_witness :
    ConfigBackupService.auto_restore_config [] [] "genie-dev-1" "S" 200 1000
      = ⟨[], [], [], false⟩ ∧
    ConfigBackupService.auto_restore_config [Fixtures.snapRestorable] []
        "genie-dev-1" "S" 202 1000 =
      ⟨ConfigBackupService.update_first_restorable [Fixtures.snapRestorable] "S" (fun x =>
          { x with restore_count := x.restore_count + 1, last_restored_at := some 1000 }),
       [⟨1, "S", "genie-dev-1", "auto_restore_triggered", "auto_restore", "success"⟩],
       [Fixtures.snapRestorable.tr069_params], true⟩ ∧
    ConfigBackupService.auto_restore_config [Fixtures.snapRestorable] []
        "genie-dev-1" "S" 404 1000 =
      ⟨[Fixtures.snapRestorable],
       [⟨1, "S", "genie-dev-1", "auto_restore_triggered", "auto_restore", "failed"⟩],
       (ConfigBackupService.send_restore_task Fixtures.snapRestorable.tr069_params 404).1,
       false⟩ :=
  ⟨(C8_restore_outcomes [] [] "genie-dev-1" "S" 200 1000).1 (by decide),
   (C8_restore_outcomes [Fixtures.snapRestorable] [] "genie-dev-1" "S" 202 1000).2.1
      Fixtures.snapRestorable (by decide) (by decide) (Or.inr rfl),
   (C8_restore_outcomes [Fixtures.snapRestorable] [] "genie-dev-1" "S" 404 1000).2.2
      Fixtures.snapRestorable (by decide) (by decide) (by decide)⟩

/-- Helper: appending one row adds its own contribution to the active count.
-/
theorem count_active_dev_append (l : List ConfigBackupService.DeviceConfigBackup)
    (b : ConfigBackupService.DeviceConfigBackup) (dev_id : Nat) :
    ConfigBackupService.count_active_dev (l ++ [b]) dev_id =
      ConfigBackupService.count_active_dev l dev_id +
        (if ConfigBackupService.active_for_device dev_id b then 1 else 0) := by
  unfold ConfigBackupService.count_active_dev
  rw [List.filter_append]
  by_cases h : ConfigBackupService.active_for_device dev_id b <;> simp [h]

/-- Helper: if the active-row query finds nothing for a device id, the
active count for that id is zero. -/
theorem count_active_dev_zero_of_none (l : List ConfigBackupService.DeviceConfigBackup)
    (dev_id : Nat) (h : ConfigBackupService.find_active l dev_id = none) :
    ConfigBackupService.count_active_dev l dev_id = 0 := by
  induction l with
  | nil => rfl
  | cons b t ih =>
    unfold ConfigBackupService.find_active at h ih
    rw [List.find?_cons] at h
    cases hb : ConfigBackupService.active_for_device dev_id b with
    | true => rw [hb] at h; exact absurd h (by simp)
    | false =>
      rw [hb] at h
      unfold ConfigBackupService.count_active_dev at ih ⊢
      simp only [List.filter_cons, hb, cond_false]
      exact ih h

/-- Helper: deactivating the first active row for a device id lowers that
id's active count by exactly one. -/
theorem count_active_dev_deactivate (l : List ConfigBackupService.DeviceConfigBackup)
    (dev_id : Nat) (ex : ConfigBackupService.DeviceConfigBackup)
    (h : ConfigBackupService.find_active l dev_id = some ex) :
    ConfigBackupService.count_active_dev (ConfigBackupService.deactivate_first l dev_id) dev_id + 1 =
      ConfigBackupService.count_active_dev l dev_id := by
  induction l with
  | nil => exact absurd h (by simp [ConfigBackupService.find_active])
  | cons b t ih =>
    unfold ConfigBackupService.find_active at h ih
    rw [List.find?_cons] at h
    unfold ConfigBackupService.deactivate_first
    cases hb : ConfigBackupService.active_for_device dev_id b with
    | true =>
      rw [if_pos rfl]
      unfold ConfigBackupService.count_active_dev
      have hflip : ConfigBackupService.active_for_device dev_id
          { b with is_active := false } = false := by
        simp [ConfigBackupService.active_for_device]
      simp [List.filter_cons, hb, hflip]
    | false =>
      rw [if_neg (by simp)]
      rw [hb] at h
      unfold ConfigBackupService.count_active_dev at ih ⊢
      simp only [List.filter_cons, hb, cond_false]
      exact ih h

/-- Helper: deactivating rows of one device id leaves any other id's active
count unchanged. -/
theorem count_active_dev_deactivate_other (l : List ConfigBackupService.DeviceConfigBackup)
    (dev_id other_id : Nat) (hne : other_id ≠ dev_id) :
    ConfigBackupService.count_active_dev (ConfigBackupService.deactivate_first l dev_id) other_id =
      ConfigBackupService.count_active_dev l other_id := by
  induction l with
  | nil => rfl
  | cons b t ih =>
    unfold ConfigBackupService.deactivate_first
    cases hb : ConfigBackupService.active_for_device dev_id b with
    | true =>
      rw [if_pos rfl]
      have hid : b.device_id = dev_id := by
        unfold ConfigBackupService.active_for_device at hb
        simp only [Bool.and_eq_true, beq_iff_eq] at hb
        exact hb.1
      have h1 : ConfigBackupService.active_for_device other_id b = false := by
        unfold ConfigBackupService.active_for_device
        simp [hid, Ne.symm hne]
      have h2 : ConfigBackupService.active_for_device other_id
          { b with is_active := false } = false := by
        simp [ConfigBackupService.active_for_device]
      unfold ConfigBackupService.count_active_dev
      simp [List.filter_cons, h1, h2]
    | false =>
      rw [if_neg (by simp)]
      unfold ConfigBackupService.count_active_dev at ih ⊢
      simp only [List.filter_cons]
      cases hb' : ConfigBackupService.active_for_device other_id b <;>
        simp [hb', ih]

/-- C1 (amended): the `create_backup` lifecycle is keyed by the device
*row id*, not the serial number: (1) it preserves the invariant that at most
one snapshot per device row id is active; (2) called on an unchanged
configuration (equal content hash with the active row), it creates nothing
and returns the existing active snapshot with the store unchanged; (3) on a
changed hash it deactivates the prior active row for that device id before
appending the new active snapshot. -/
theorem C1_backup_lifecycle :
    (∀ (store : List ConfigBackupService.DeviceConfigBackup)
       (device? : Option ConfigBackupService.DeviceRow) (data : PTree),
      (∀ i, ConfigBackupService.count_active_dev store i ≤ 1) →
      ∀ i, ConfigBackupService.count_active_dev
             (ConfigBackupService.create_backup store device? data).store i ≤ 1) ∧
    (∀ (store : List ConfigBackupService.DeviceConfigBackup)
       (dev : ConfigBackupService.DeviceRow) (data : PTree)
       (ex : ConfigBackupService.DeviceConfigBackup),
      pyTruthy (ConfigBackupService.backup_serial dev data) = true →
      (pyTruthy (ConfigBackupService.extract_wifi_config data).b24.ssid ||
         pyTruthy (ConfigBackupService.extract_wan_config data).pppoe.username) = true →
      ConfigBackupService.find_active store dev.id = some ex →
      ConfigBackupService.compute_config_hash ex.wifi_config ex.wan_config ex.lan_config =
        ConfigBackupService.compute_config_hash (ConfigBackupService.extract_wifi_config data)
          (ConfigBackupService.extract_wan_config data)
          (ConfigBackupService.extract_lan_config data) →
      ConfigBackupService.create_backup store (some dev) data = ⟨store, some ex⟩) ∧
    (∀ (store : List ConfigBackupService.DeviceConfigBackup)
       (dev : ConfigBackupService.DeviceRow) (data : PTree)
       (ex : ConfigBackupService.DeviceConfigBackup),
      pyTruthy (ConfigBackupService.backup_serial dev data) = true →
      (pyTruthy (ConfigBackupService.extract_wifi_config data).b24.ssid ||
         pyTruthy (ConfigBackupService.extract_wan_config data).pppoe.username) = true →
      ConfigBackupService.find_active store dev.id = some ex →
      ConfigBackupService.compute_config_hash ex.wifi_config ex.wan_config ex.lan_config ≠
        ConfigBackupService.compute_config_hash (ConfigBackupService.extract_wifi_config data)
          (ConfigBackupService.extract_wan_config data)
          (ConfigBackupService.extract_lan_config data) →
      ∃ newb, ConfigBackupService.create_backup store (some dev) data =
          ⟨ConfigBackupService.deactivate_first store dev.id ++ [newb], some newb⟩ ∧
        newb.is_active = true ∧ newb.device_id = dev.id) := by
  refine ⟨?_, ?_, ?_⟩
  · intro store device? data hinv i
    unfold ConfigBackupService.create_backup
    cases device? with
    | none => exact hinv i
    | some dev =>
      dsimp only
      split
      · exact hinv i
      · split
        · exact hinv i
        · cases hfa : ConfigBackupService.find_active store dev.id with
          | some ex =>
            simp only [hfa]
            split
            · exact hinv i
            · rw [count_active_dev_append]
              split
              · rename_i hnb
                simp only [ConfigBackupService.active_for_device, Bool.and_eq_true,
                  beq_iff_eq] at hnb
                have hid : i = dev.id := hnb.1.symm
                subst hid
                have hd := count_active_dev_deactivate store dev.id ex hfa
                have h1 := hinv dev.id
                omega
              · rename_i hnb
                have hne : i ≠ dev.id := by
                  intro he
                  subst he
                  exact hnb (by simp [ConfigBackupService.active_for_device])
                rw [count_active_dev_deactivate_other store dev.id i hne]
                have h1 := hinv i
                omega
          | none =>
            simp only [hfa]
            rw [count_active_dev_append]
            have h0 := count_active_dev_zero_of_none store dev.id hfa
            split
            · rename_i hnb
              simp only [ConfigBackupService.active_for_device, Bool.and_eq_true,
                beq_iff_eq] at hnb
              have hid : i = dev.id := hnb.1.symm
              subst hid
              omega
            · have h1 := hinv i
              omega
  · intro store dev data ex hserial hhas hfa hhash
    unfold ConfigBackupService.create_backup
    simp only [hserial, Bool.not_true, Bool.false_eq_true, if_false]
    have hcond : (!pyTruthy (ConfigBackupService.extract_wifi_config data).b24.ssid &&
        !pyTruthy (ConfigBackupService.extract_wan_config data).pppoe.username) = false := by
      cases h1 : pyTruthy (ConfigBackupService.extract_wifi_config data).b24.ssid <;>
        cases h2 : pyTruthy (ConfigBackupService.extract_wan_config data).pppoe.username <;>
          simp_all
    simp only [hcond, Bool.false_eq_true, if_false, hfa]
    rw [if_pos hhash]
  · intro store dev data ex hserial hhas hfa hhash
    unfold ConfigBackupService.create_backup
    simp only [hserial, Bool.not_true, Bool.false_eq_true, if_false]
    have hcond : (!pyTruthy (ConfigBackupService.extract_wifi_config data).b24.ssid &&
        !pyTruthy (ConfigBackupService.extract_wan_config data).pppoe.username) = false := by
      cases h1 : pyTruthy (ConfigBackupService.extract_wifi_config data).b24.ssid <;>
        cases h2 : pyTruthy (ConfigBackupService.extract_wan_config data).pppoe.username <;>
          simp_all
    simp only [hcond, Bool.false_eq_true, if_false, hfa]
    rw [if_neg hhash]
    exact ⟨_, rfl, rfl, rfl⟩

/-- C1, counterexample: with an active snapshot for serial `"S"` stored
under device row 1, running `create_backup` for device row 2 — a different
database row carrying the same serial `"S"` (the state the repository itself
anticipates when a device reconnects under a new GenieACS id) — leaves two
active snapshots with serial `"S"`: the per-serial-number invariant of the
claim does not hold; deduplication and deactivation are keyed by the device
row id. -/
theorem C1_counterexample :
    ConfigBackupService.count_active_serial [Fixtures.snapA] (.leaf (.pstr "S")) = 1 ∧
    Fixtures.dev2.serial_number = some "S" ∧
    ConfigBackupService.count_active_serial
      ((ConfigBackupService.create_backup [Fixtures.snapA] (some Fixtures.dev2)
        Fixtures.data24).store) (.leaf (.pstr "S")) = 2 := by decide

/-- C1, witness for `C1_backup_lifecycle` at concrete stores: invariant
preservation from the empty store, the unchanged-hash no-op, and the
changed-hash deactivate-and-append transition. -/
theorem C1_backup_lifecycle_witness :
    (ConfigBackupService.count_active_dev
      ((ConfigBackupService.create_backup [] (some Fixtures.dev1) Fixtures.data24).store) 1 ≤ 1) ∧
    ConfigBackupService.create_backup [Fixtures.snapA] (some Fixtures.dev1) Fixtures.data24
      = ⟨[Fixtures.snapA], some Fixtures.snapA⟩ ∧
    (∃ newb,
      ConfigBackupService.create_backup [Fixtures.snapA] (some Fixtures.dev1) Fixtures.data24b
        = ⟨ConfigBackupService.deactivate_first [Fixtures.snapA] Fixtures.dev1.id ++ [newb],
           some newb⟩ ∧
      newb.is_active = true ∧ newb.device_id = Fixtures.dev1.id) :=
  ⟨C1_backup_lifecycle.1 [] (some Fixtures.dev1) Fixtures.data24
      (fun i => by simp [ConfigBackupService.count_active_dev]) 1,
   C1_backup_lifecycle.2.1 [Fixtures.snapA] Fixtures.dev1 Fixtures.data24 Fixtures.snapA
      (by decide) (by decide) (by decide) (by decide),
   C1_backup_lifecycle.2.2 [Fixtures.snapA] Fixtures.dev1 Fixtures.data24b Fixtures.snapA
      (by decide) (by decide) (by decide) (by decide)⟩
